import Mathlib

set_option maxRecDepth 16384

/-!
Shallow embedding of the optml-sql generators:
`src/generate_schema.py` (XML to idempotent SQL DDL) and
`src/generate_drizzle.py` (XML to Drizzle ORM table definitions),
together with theorems settling the spec claims about them.

Strings are modelled as Lean `String`; Python `str.upper`/`str.lower` are
modelled on the ASCII range, which is the alphabet the generators handle.
-/

/-- ASCII lowercase conversion of one character, modelling Python str.lower
on the ASCII inputs the tool processes. -/
def pyLowerChar (c : Char) : Char :=
  if 65 ≤ c.toNat ∧ c.toNat ≤ 90 then Char.ofNat (c.toNat + 32) else c

/-- ASCII uppercase conversion of one character, modelling Python str.upper
on the ASCII inputs the tool processes. -/
def pyUpperChar (c : Char) : Char :=
  if 97 ≤ c.toNat ∧ c.toNat ≤ 122 then Char.ofNat (c.toNat - 32) else c

/-- Python str.lower (ASCII model). -/
def pyLower (s : String) : String := ⟨s.data.map pyLowerChar⟩

/-- Python str.upper (ASCII model). -/
def pyUpper (s : String) : String := ⟨s.data.map pyUpperChar⟩

/-- Whether the character list `n` is an initial segment of the second list. -/
def listLeads : List Char → List Char → Bool
  | [], _ => true
  | _ :: _, [] => false
  | a :: as, b :: bs => a == b && listLeads as bs

/-- Whether `n` occurs contiguously anywhere in the second list. -/
def listOccurs (n : List Char) : List Char → Bool
  | [] => n.isEmpty
  | c :: t => listLeads n (c :: t) || listOccurs n t

/-- Python `needle in hay` for strings. -/
def containsSub (hay needle : String) : Bool := listOccurs needle.data hay.data

/-- Python hay.startswith(needle). -/
def pyStartsWith (hay needle : String) : Bool := listLeads needle.data hay.data

/-- Python hay.endswith(needle). -/
def pyEndsWith (hay needle : String) : Bool :=
  listLeads needle.data.reverse hay.data.reverse

/-- A child element of a top-level command: its tag and attribute pairs.
XML attributes carry at most one value per key; lookup models
ElementTree's attrib.get. -/
structure Child where
  tag : String
  attrib : List (String × String)
deriving DecidableEq

/-- A top-level element of the schema document with its child elements.
The generators inspect exactly these two levels of the parsed tree. -/
structure Command where
  tag : String
  attrib : List (String × String)
  children : List Child
deriving DecidableEq

/-- attrib.get(key): the value bound to the key, if any. -/
def getAttr (a : List (String × String)) (k : String) : Option String :=
  (a.find? (fun p => p.1 == k)).map Prod.snd

/-- attrib.get(key, d): lookup with a default. -/
def getAttrD (a : List (String × String)) (k d : String) : String :=
  (getAttr a k).getD d

/-- attrib.get(key) combined with Python truthiness: the value only when it is
present and nonempty, since `if not x:` skips both None and the empty string. -/
def truthyAttr (a : List (String × String)) (k : String) : Option String :=
  match getAttr a k with
  | some s => if s.isEmpty then none else some s
  | none => none

/-! Statement builders, one per f-string of src/generate_schema.py. -/

/-- Line 24: CREATE EXTENSION statement. -/
def extStmt (n : String) : String :=
  "CREATE EXTENSION IF NOT EXISTS \"" ++ n ++ "\";"

/-- Lines 62, 153, 169, 173, 174: ADD COLUMN IF NOT EXISTS statement. -/
def addColumnStmt (t colDef : String) : String :=
  "ALTER TABLE " ++ t ++ " ADD COLUMN IF NOT EXISTS " ++ colDef ++ ";"

/-- Lines 69, 158, 166, 170: DROP CONSTRAINT IF EXISTS statement. -/
def dropConstraintStmt (t n : String) : String :=
  "ALTER TABLE " ++ t ++ " DROP CONSTRAINT IF EXISTS " ++ n ++ ";"

/-- Line 72: ADD CONSTRAINT ... UNIQUE statement. -/
def addUniqueStmt (t n c : String) : String :=
  "ALTER TABLE " ++ t ++ " ADD CONSTRAINT " ++ n ++ " UNIQUE (" ++ c ++ ");"

/-- Line 82: DROP COLUMN IF EXISTS statement. -/
def dropColumnStmt (t c : String) : String :=
  "ALTER TABLE " ++ t ++ " DROP COLUMN IF EXISTS " ++ c ++ ";"

/-- Line 93: drop of the foreign-key constraint fk_<table>_<column>. -/
def fkDropStmt (t c : String) : String :=
  "ALTER TABLE " ++ t ++ " DROP CONSTRAINT IF EXISTS fk_" ++ t ++ "_" ++ c ++ ";"

/-- Lines 96-102: ADD CONSTRAINT ... FOREIGN KEY with optional ON DELETE and
ON UPDATE clauses. -/
def fkAddStmt (t c rT rC : String) (od ou : Option String) : String :=
  "ALTER TABLE " ++ t ++ " ADD CONSTRAINT fk_" ++ t ++ "_" ++ c
    ++ " FOREIGN KEY (" ++ c ++ ") REFERENCES " ++ rT ++ "(" ++ rC ++ ")"
    ++ (match od with | some v => " ON DELETE " ++ v | none => "")
    ++ (match ou with | some v => " ON UPDATE " ++ v | none => "")
    ++ ";"

/-- Lines 115, 128: DROP INDEX IF EXISTS statement. -/
def dropIndexStmt (n : String) : String := "DROP INDEX IF EXISTS " ++ n ++ ";"

/-- Line 117: bare CREATE INDEX used when update="true". -/
def createIndexBareStmt (n t cols : String) : String :=
  "CREATE INDEX " ++ n ++ " ON " ++ t ++ " (" ++ cols ++ ");"

/-- Line 119: guarded CREATE INDEX IF NOT EXISTS. -/
def createIndexStmt (n t cols : String) : String :=
  "CREATE INDEX IF NOT EXISTS " ++ n ++ " ON " ++ t ++ " (" ++ cols ++ ");"

/-- Lines 135-136: CREATE TABLE from the effective column definitions. -/
def createTableStmt (t : String) (colDefs : List String) : String :=
  "CREATE TABLE IF NOT EXISTS " ++ t ++ " (\n    "
    ++ String.intercalate ",\n    " colDefs ++ "\n);"

/-- Line 148: history table cloned from the tracked table. -/
def likeStmt (hist t : String) : String :=
  "CREATE TABLE IF NOT EXISTS " ++ hist ++ " (LIKE " ++ t
    ++ " EXCLUDING CONSTRAINTS);"

/-- Line 171: primary-key constraint on historyid. -/
def histPkAddStmt (hist : String) : String :=
  "ALTER TABLE " ++ hist ++ " ADD CONSTRAINT " ++ hist
    ++ "_historyid_pkey PRIMARY KEY (historyid);"

/-- Lines 183-200: the trigger function, inserting per-column copies of NEW on
insert and update and of OLD on delete, with operation tags INSERT, UPDATE,
DELETE. -/
def trigFnStmt (t hist colList newVals oldVals : String) : String :=
  "CREATE OR REPLACE FUNCTION log_history_" ++ t
    ++ "() RETURNS trigger AS $$\nBEGIN\n    IF (TG_OP = \x27INSERT\x27) THEN\n        INSERT INTO "
    ++ hist ++ " (" ++ colList ++ ", changed_at, operation)\n        VALUES ("
    ++ newVals
    ++ ", now(), \x27INSERT\x27);\n        RETURN NEW;\n    ELSIF (TG_OP = \x27UPDATE\x27) THEN\n        INSERT INTO "
    ++ hist ++ " (" ++ colList ++ ", changed_at, operation)\n        VALUES ("
    ++ newVals
    ++ ", now(), \x27UPDATE\x27);\n        RETURN NEW;\n    ELSIF (TG_OP = \x27DELETE\x27) THEN\n        INSERT INTO "
    ++ hist ++ " (" ++ colList ++ ", changed_at, operation)\n        VALUES ("
    ++ oldVals
    ++ ", now(), \x27DELETE\x27);\n        RETURN OLD;\n    END IF;\n    RETURN NULL;\nEND;\n$$ LANGUAGE plpgsql;"

/-- Line 203: drop of the history trigger. -/
def dropTrigStmt (t : String) : String :=
  "DROP TRIGGER IF EXISTS log_history_" ++ t ++ " ON " ++ t ++ ";"

/-- Line 205: creation of the history trigger. -/
def createTrigStmt (t : String) : String :=
  "CREATE TRIGGER log_history_" ++ t
    ++ " AFTER INSERT OR UPDATE OR DELETE ON " ++ t
    ++ " FOR EACH ROW EXECUTE FUNCTION log_history_" ++ t ++ "();"

/-- Line 215: drop of the table itself. -/
def dropTableStmt (n : String) : String := "DROP TABLE IF EXISTS " ++ n ++ ";"

/-- Line 216: drop of the corresponding history table. -/
def dropHistTableStmt (n : String) : String :=
  "DROP TABLE IF EXISTS History_" ++ n ++ ";"

/-- Column definition built by lines 49-58: base `<name> <type>`, optional
PRIMARY KEY, optional NOT NULL, optional verbatim DEFAULT, joined by spaces. -/
def colDefOf (a : List (String × String)) (n ty : String) : String :=
  String.intercalate " "
    ([n ++ " " ++ ty]
      ++ (if pyLower (getAttrD a "primaryKey" "false") == "true" then ["PRIMARY KEY"] else [])
      ++ (if pyLower (getAttrD a "nullable" "true") == "false" then ["NOT NULL"] else [])
      ++ (match getAttr a "default" with
          | some d => ["DEFAULT " ++ d]
          | none => []))

/-- The per-table accumulators of the addTable loop: alter_ops, foreign_keys,
the OrderedDict of effective columns, and the statements appended directly to
sql_statements while the children are being walked (the foreign-key drops of
line 94). -/
structure TableState where
  alterOps : List String
  foreignKeys : List String
  effectiveColumns : List (String × String)
  immediate : List String

/-- OrderedDict assignment: replace the value in place when the key exists,
else append the pair at the end. -/
def odInsert (es : List (String × String)) (k v : String) : List (String × String) :=
  if es.any (fun p => p.1 == k) then es.map (fun p => if p.1 == k then (k, v) else p)
  else es ++ [(k, v)]

/-- OrderedDict deletion (the membership-guarded del of lines 80-81). -/
def odErase (es : List (String × String)) (k : String) : List (String × String) :=
  es.filter (fun p => !(p.1 == k))

/-- One iteration of the child loop of addTable, src/generate_schema.py
lines 41-131.  A child missing a required (nonempty) attribute leaves the
state unchanged. -/
def processChild (t : String) (st : TableState) (c : Child) : TableState :=
  if c.tag == "addColumn" then
    match truthyAttr c.attrib "name", truthyAttr c.attrib "type" with
    | some n, some ty =>
      let colDef := colDefOf c.attrib n ty
      { st with
        effectiveColumns := odInsert st.effectiveColumns n colDef,
        alterOps := st.alterOps ++ [addColumnStmt t colDef]
          ++ (if pyLower (getAttrD c.attrib "unique" "false") == "true" then
                [dropConstraintStmt t ("uk_" ++ t ++ "_" ++ n),
                 addUniqueStmt t ("uk_" ++ t ++ "_" ++ n) n]
              else []) }
    | _, _ => st
  else if c.tag == "removeColumn" then
    match truthyAttr c.attrib "name" with
    | some n =>
      { st with
        effectiveColumns := odErase st.effectiveColumns n,
        alterOps := st.alterOps ++ [dropColumnStmt t n] }
    | none => st
  else if c.tag == "addForeignKey" then
    match truthyAttr c.attrib "column", truthyAttr c.attrib "refTable",
        truthyAttr c.attrib "refColumn" with
    | some fc, some rT, some rC =>
      { st with
        immediate := st.immediate ++ [fkDropStmt t fc],
        foreignKeys := st.foreignKeys
          ++ [fkAddStmt t fc rT rC (truthyAttr c.attrib "onDelete")
                (truthyAttr c.attrib "onUpdate")] }
    | _, _, _ => st
  else if c.tag == "addIndex" then
    match truthyAttr c.attrib "name", truthyAttr c.attrib "columns" with
    | some n, some cols =>
      if pyLower (getAttrD c.attrib "update" "false") == "true" then
        { st with alterOps := st.alterOps
            ++ [dropIndexStmt ("INDEX_" ++ n),
                createIndexBareStmt ("INDEX_" ++ n) t cols] }
      else
        { st with alterOps := st.alterOps ++ [createIndexStmt ("INDEX_" ++ n) t cols] }
    | _, _ => st
  else if c.tag == "removeIndex" then
    match truthyAttr c.attrib "name" with
    | some n => { st with alterOps := st.alterOps ++ [dropIndexStmt ("INDEX_" ++ n)] }
    | none => st
  else st

/-- The history block of a history-enabled table, src/generate_schema.py
lines 144-208: LIKE clone, per-column adds, primary-key and foreign-key
cleanups rescanned from the children, the historyid/changed_at/operation
columns, and, when effective columns exist, the trigger function and trigger. -/
def historySegment (t : String) (children : List Child)
    (effCols : List (String × String)) : List String :=
  let hist := "History_" ++ t
  [likeStmt hist t]
  ++ effCols.map (fun p => addColumnStmt hist p.2)
  ++ children.filterMap (fun c =>
      if c.tag == "addColumn" && pyLower (getAttrD c.attrib "primaryKey" "false") == "true" then
        some (dropConstraintStmt hist (hist ++ "_pkey"))
      else none)
  ++ children.filterMap (fun c =>
      if c.tag == "addForeignKey" then
        match truthyAttr c.attrib "column" with
        | some fc => some (dropConstraintStmt hist ("fk_" ++ t ++ "_" ++ fc))
        | none => none
      else none)
  ++ [addColumnStmt hist "historyid SERIAL",
      dropConstraintStmt hist (hist ++ "_historyid_pkey"),
      histPkAddStmt hist,
      addColumnStmt hist "changed_at TIMESTAMP DEFAULT now()",
      addColumnStmt hist "operation TEXT"]
  ++ (if effCols.isEmpty then []
      else
        [trigFnStmt t hist
           (String.intercalate ", " (effCols.map Prod.fst))
           (String.intercalate ", " (effCols.map (fun p => "NEW." ++ p.1)))
           (String.intercalate ", " (effCols.map (fun p => "OLD." ++ p.1))),
         dropTrigStmt t,
         createTrigStmt t])

/-- The statements one top-level command appends to sql_statements,
src/generate_schema.py lines 17-218.  A command missing its required name, or
with an unrecognized tag, appends nothing. -/
def processCommand (cmd : Command) : List String :=
  if cmd.tag == "createExtension" then
    match truthyAttr cmd.attrib "name" with
    | some n => [extStmt n]
    | none => []
  else if cmd.tag == "addTable" then
    match truthyAttr cmd.attrib "name" with
    | some t =>
      let isHistory := ["true", "yes", "1"].contains (pyLower (getAttrD cmd.attrib "history" ""))
      let st := cmd.children.foldl (processChild t) ⟨[], [], [], []⟩
      st.immediate
        ++ (if st.effectiveColumns.isEmpty then []
            else [createTableStmt t (st.effectiveColumns.map Prod.snd)])
        ++ st.alterOps
        ++ st.foreignKeys
        ++ (if isHistory then historySegment t cmd.children st.effectiveColumns else [])
    | none => []
  else if cmd.tag == "removeTable" then
    match truthyAttr cmd.attrib "name" with
    | some n => [dropTableStmt n, dropHistTableStmt n]
    | none => []
  else []

/-- All statements of generate_sql in order, with the transaction markers. -/
def generateStmts (doc : List Command) : List String :=
  ["BEGIN;"] ++ doc.flatMap processCommand ++ ["COMMIT;"]

/-- The full textual output of generate_sql: statements joined by blank lines. -/
def generate_sql (doc : List Command) : String :=
  String.intercalate "\n\n" (generateStmts doc)

/-! Embedding of src/generate_drizzle.py. -/

/-- re.match of the pattern (word)((digits), spaces (digits)) used at
lines 31-36, anchored at the start with ASCII character classes; yields the
precision and scale capture groups.  The quantifiers need no backtracking
because each repeated class excludes the following literal. -/
def matchPrecScale (s : List Char) : Option (String × String) :=
  let w := s.span (fun c => c.isAlphanum || c == '_')
  if w.1.isEmpty then none else
  match w.2 with
  | '(' :: r2 =>
    let d1 := r2.span Char.isDigit
    if d1.1.isEmpty then none else
    match d1.2 with
    | ',' :: r4 =>
      let r5 := (r4.span (fun c =>
        c == ' ' || c == '\t' || c == '\n' || c == '\x0d' || c == '\x0c' || c == '\x0b')).2
      let d2 := r5.span Char.isDigit
      if d2.1.isEmpty then none else
      match d2.2 with
      | ')' :: _ => some (⟨d1.1⟩, ⟨d2.1⟩)
      | _ => none
    | _ => none
  | _ => none

/-- Conversion of a PostgreSQL type string to a Drizzle type token plus
rendered option pairs, src/generate_drizzle.py lines 7-39.  The empty option
list stands for the plain-string return of the Python function; option values
are stored as the text the emitter prints for them (booleans lowercased). -/
def pg_type_to_drizzle_type (pgType : String) : String × List (String × String) :=
  let t := pyUpper pgType
  if t == "UUID" then ("uuid", [])
  else if t == "SERIAL" then ("serial", [])
  else if pyStartsWith t "VARCHAR" || t == "TEXT" then ("text", [])
  else if pyStartsWith t "INT" || t == "INTEGER" then ("integer", [])
  else if t == "BOOLEAN" then ("boolean", [])
  else if pyStartsWith t "TIMESTAMP" then
    (if containsSub t "WITH TIME ZONE" then ("timestamp", [("withTimezone", "true")])
     else ("timestamp", []))
  else if pyStartsWith t "DATE" then ("date", [])
  else if t == "JSON" then ("json", [])
  else if t == "JSONB" then ("jsonb", [])
  else if pyStartsWith t "DECIMAL" || pyStartsWith t "NUMERIC" then
    (match matchPrecScale t.data with
     | some pr => ("decimal", [("precision", pr.1), ("scale", pr.2)])
     | none => ("decimal", []))
  else ("text", [])

/-- The default-value modifier of the Drizzle emitter,
src/generate_drizzle.py lines 100-114: verbatim pass-through of a
sql\x60...\x60 wrapper, .defaultNow() for now(), the dedicated marker for
uuid_generate_v4(), else a literal default auto-quoted for textual types
when the value does not already start with a quote. -/
def defaultClause (drizzleType v : String) : String :=
  if pyStartsWith v "sql\x60" && pyEndsWith v "\x60" then ".default(" ++ v ++ ")"
  else if v == "now()" then ".defaultNow()"
  else if v == "uuid_generate_v4()" then ".default(sql\x60uuid_generate_v4()\x60)"
  else
    ".default("
      ++ (if (drizzleType == "text" || drizzleType == "varchar")
             && !(pyStartsWith v "\x27" || pyStartsWith v "\"") then
            "\x27" ++ v ++ "\x27"
          else v)
      ++ ")"

/-- One Drizzle column line for a valid addColumn,
src/generate_drizzle.py lines 76-120. -/
def drizzleColDef (c : Child) (n ty : String) : String :=
  let r := pg_type_to_drizzle_type ty
  let typeOptions :=
    if r.2.isEmpty then ""
    else "\x7b " ++ String.intercalate ", " (r.2.map (fun p => p.1 ++ ": " ++ p.2)) ++ " \x7d"
  "  " ++ n ++ ": " ++ r.1 ++ "(\x27" ++ n ++ "\x27"
    ++ (if typeOptions.isEmpty then "" else ", " ++ typeOptions)
    ++ ")"
    ++ (if pyLower (getAttrD c.attrib "nullable" "true") == "false" then ".notNull()" else "")
    ++ (match getAttr c.attrib "default" with
        | some v => defaultClause r.1 v
        | none => "")
    ++ (if pyLower (getAttrD c.attrib "primaryKey" "false") == "true" then ".primaryKey()" else "")
    ++ ","

/-- The fixed import header of the Drizzle output, lines 50-53. -/
def drizzleImports : String :=
  "import \x7b pgTable, serial, uuid, text, integer, boolean, timestamp, date, json, jsonb, decimal, primaryKey, foreignKey \x7d from \x27drizzle-orm/pg-core\x27;\nimport \x7b sql \x7d from \x27drizzle-orm\x27;\n\n"

/-- One iteration of the child loop of the Drizzle emitter, lines 67-120:
only addColumn children are inspected; an invalid one adds a warning; the
foreign-key branch of the source is an inert string literal, so foreign_keys
stays empty and is omitted here. -/
def drizzleColStep (t : String) (acc : List String × List String) (c : Child) :
    List String × List String :=
  if c.tag == "addColumn" then
    match truthyAttr c.attrib "name", truthyAttr c.attrib "type" with
    | some n, some ty => (acc.1 ++ [drizzleColDef c n ty], acc.2)
    | _, _ =>
      (acc.1, acc.2 ++ ["Warning: <addColumn> missing name or type in table " ++ t ++ ".\n"])
  else acc

/-- Column lines and warnings accumulated over one addTable's children. -/
def drizzleColumns (t : String) (children : List Child) : List String × List String :=
  children.foldl (drizzleColStep t) ([], [])

/-- One exported table-definition block, lines 145-149. -/
def drizzleTableDef (t : String) (cols : List String) : String :=
  "export const " ++ t ++ " = pgTable(\x27" ++ t ++ "\x27, \x7b\n"
    ++ String.intercalate "\n" cols ++ "\n\x7d);\n"

/-- One iteration of the top-level loop of the Drizzle emitter, lines 57-152:
only addTable elements have any effect, every other element is passed over
silently. -/
def drizzleStep (acc : List String × List String) (cmd : Command) :
    List String × List String :=
  if cmd.tag == "addTable" then
    match truthyAttr cmd.attrib "name" with
    | some t =>
      let cw := drizzleColumns t cmd.children
      (acc.1 ++ [drizzleTableDef t cw.1], acc.2 ++ cw.2)
    | none => (acc.1, acc.2 ++ ["Warning: <addTable> without a name attribute.\n"])
  else acc

/-- generate_drizzle_schema, lines 41-158: the output text together with the
warnings printed to stderr, in order. -/
def generate_drizzle (doc : List Command) : String × List String :=
  let acc := doc.foldl drizzleStep ([], [])
  (drizzleImports ++ String.intercalate "\n" acc.1 ++ "\n", acc.2)

/-! Specification-level view of the effective column computation. -/

/-- A column operation abstracted from a valid addColumn or removeColumn
child, in document order. -/
inductive ColOp where
  | add (name colDef : String)
  | remove (name : String)
deriving DecidableEq

/-- The column operation a child contributes to the Effective Column Set:
valid addColumn children insert their rendered definition, valid removeColumn
children delete their name, every other child contributes nothing. -/
def childColOp (c : Child) : Option ColOp :=
  if c.tag == "addColumn" then
    match truthyAttr c.attrib "name", truthyAttr c.attrib "type" with
    | some n, some ty => some (ColOp.add n (colDefOf c.attrib n ty))
    | _, _ => none
  else if c.tag == "removeColumn" then
    match truthyAttr c.attrib "name" with
    | some n => some (ColOp.remove n)
    | none => none
  else none

/-- Applying one column operation to the ordered effective column list. -/
def applyColOp (es : List (String × String)) : ColOp → List (String × String)
  | ColOp.add k v => odInsert es k v
  | ColOp.remove k => odErase es k

/-- The last operation in the list that touches column `k`. -/
def lastOpOn (k : String) : List ColOp → Option ColOp
  | [] => none
  | op :: rest =>
    match lastOpOn k rest with
    | some o => some o
    | none =>
      match op with
      | ColOp.add k2 v => if k2 == k then some (ColOp.add k2 v) else none
      | ColOp.remove k2 => if k2 == k then some (ColOp.remove k2) else none

/-- The definition column `k` ends up with according to the last operation on
it: its last added definition when that operation is an add, nothing when it
is a removal or when `k` was never touched. -/
def lastAddVal (k : String) (ops : List ColOp) : Option String :=
  match lastOpOn k ops with
  | some (ColOp.add _ v) => some v
  | _ => none

/-- Lookup of a column in the ordered effective column list: the definition
bound to the first entry named `k`, if any. -/
def lookupCol (k : String) : List (String × String) → Option String
  | [] => none
  | p :: rest => if p.1 == k then some p.2 else lookupCol k rest

/-- Whether the operation removes column `k`. -/
def removesCol (k : String) : ColOp → Bool
  | ColOp.add _ _ => false
  | ColOp.remove k2 => k2 == k

/-- Whether no operation in the list removes column `k`. -/
def noRemove (k : String) (ops : List ColOp) : Bool :=
  ops.all (fun op => !(removesCol k op))

/-- The definition carried by the last add of `k` in the list, if any. -/
def lastAdd (k : String) : List ColOp → Option String
  | [] => none
  | op :: rest =>
    match lastAdd k rest with
    | some v => some v
    | none =>
      match op with
      | ColOp.add k2 v => if k2 == k then some v else none
      | ColOp.remove _ => none

/-- The effective column list as the claim describes it, built by walking the
operations in document order: a column is (re)declared at its first add after
its last removal (`avoid` holds the names currently declared), appears exactly
once, survives only when no later removal wins over it, and carries the
definition of its last add. -/
def freshList : List ColOp → List String → List (String × String)
  | [], _ => []
  | ColOp.add k v :: rest, avoid =>
    if avoid.any (fun x => x == k) then freshList rest avoid
    else
      (if noRemove k rest then [(k, (lastAdd k rest).getD v)] else [])
        ++ freshList rest (avoid ++ [k])
  | ColOp.remove k :: rest, avoid =>
    freshList rest (avoid.filter (fun x => !(x == k)))

/-- Entries of `es` whose column survives every operation of the list,
updated to the definition of its last add when one occurs. -/
def stayPart : List (String × String) → List ColOp → List (String × String)
  | [], _ => []
  | p :: es, ops =>
    (if noRemove p.1 ops then [(p.1, (lastAdd p.1 ops).getD p.2)] else [])
      ++ stayPart es ops

/-! Per-child statement contributions (state independent). -/

/-- The alter_ops statements one child appends, src/generate_schema.py
lines 41-131. -/
def childAlterOps (t : String) (c : Child) : List String :=
  if c.tag == "addColumn" then
    match truthyAttr c.attrib "name", truthyAttr c.attrib "type" with
    | some n, some ty =>
      [addColumnStmt t (colDefOf c.attrib n ty)]
        ++ (if pyLower (getAttrD c.attrib "unique" "false") == "true" then
              [dropConstraintStmt t ("uk_" ++ t ++ "_" ++ n),
               addUniqueStmt t ("uk_" ++ t ++ "_" ++ n) n]
            else [])
    | _, _ => []
  else if c.tag == "removeColumn" then
    match truthyAttr c.attrib "name" with
    | some n => [dropColumnStmt t n]
    | none => []
  else if c.tag == "addForeignKey" then []
  else if c.tag == "addIndex" then
    match truthyAttr c.attrib "name", truthyAttr c.attrib "columns" with
    | some n, some cols =>
      if pyLower (getAttrD c.attrib "update" "false") == "true" then
        [dropIndexStmt ("INDEX_" ++ n), createIndexBareStmt ("INDEX_" ++ n) t cols]
      else [createIndexStmt ("INDEX_" ++ n) t cols]
    | _, _ => []
  else if c.tag == "removeIndex" then
    match truthyAttr c.attrib "name" with
    | some n => [dropIndexStmt ("INDEX_" ++ n)]
    | none => []
  else []

/-- The immediate foreign-key drop one child appends to sql_statements
(line 94), if any. -/
def childFkDrop (t : String) (c : Child) : Option String :=
  if c.tag == "addForeignKey" then
    match truthyAttr c.attrib "column", truthyAttr c.attrib "refTable",
        truthyAttr c.attrib "refColumn" with
    | some fc, some _, some _ => some (fkDropStmt t fc)
    | _, _, _ => none
  else none

/-- The buffered foreign-key addition one child appends to foreign_keys
(line 103), if any. -/
def childFkAdd (t : String) (c : Child) : Option String :=
  if c.tag == "addForeignKey" then
    match truthyAttr c.attrib "column", truthyAttr c.attrib "refTable",
        truthyAttr c.attrib "refColumn" with
    | some fc, some rT, some rC =>
      some (fkAddStmt t fc rT rC (truthyAttr c.attrib "onDelete")
              (truthyAttr c.attrib "onUpdate"))
    | _, _, _ => none
  else none

/-! Structural lemmas about the per-table fold. -/

theorem processChild_alterOps (t : String) (st : TableState) (c : Child) :
    (processChild t st c).alterOps = st.alterOps ++ childAlterOps t c := by
  unfold processChild childAlterOps
  repeat' split
  all_goals simp_all

theorem processChild_foreignKeys (t : String) (st : TableState) (c : Child) :
    (processChild t st c).foreignKeys = st.foreignKeys ++ (childFkAdd t c).toList := by
  unfold processChild childFkAdd
  repeat' split
  all_goals simp_all

theorem processChild_immediate (t : String) (st : TableState) (c : Child) :
    (processChild t st c).immediate = st.immediate ++ (childFkDrop t c).toList := by
  unfold processChild childFkDrop
  repeat' split
  all_goals simp_all

theorem processChild_effectiveColumns (t : String) (st : TableState) (c : Child) :
    (processChild t st c).effectiveColumns =
      match childColOp c with
      | some op => applyColOp st.effectiveColumns op
      | none => st.effectiveColumns := by
  unfold processChild childColOp
  repeat' split
  all_goals try (rename_i o ho; injection ho with ho2; rw [← ho2])
  all_goals simp_all [applyColOp]

/-- Master characterization of the addTable child loop: the four accumulators
grow by state-independent per-child contributions, and the effective columns
are the fold of the abstracted column operations. -/
theorem foldl_processChild_eq (t : String) (children : List Child) (st : TableState) :
    children.foldl (processChild t) st =
      ⟨st.alterOps ++ children.flatMap (childAlterOps t),
       st.foreignKeys ++ children.filterMap (childFkAdd t),
       (children.filterMap childColOp).foldl applyColOp st.effectiveColumns,
       st.immediate ++ children.filterMap (childFkDrop t)⟩ := by
  induction children generalizing st with
  | nil => simp
  | cons c rest ih =>
    rw [List.foldl_cons, ih]
    have ha := processChild_alterOps t st c
    have hf := processChild_foreignKeys t st c
    have hi := processChild_immediate t st c
    have he := processChild_effectiveColumns t st c
    cases hop : childFkAdd t c <;> cases hdrop : childFkDrop t c <;>
      cases hco : childColOp c <;>
      simp_all [List.filterMap_cons]

/-! Lemmas about the ordered effective column list. -/

theorem map_fst_filter_ne (es : List (String × String)) (k : String) :
    (es.filter (fun p => !(p.1 == k))).map Prod.fst
      = (es.map Prod.fst).filter (fun x => !(x == k)) := by
  induction es with
  | nil => rfl
  | cons p rest ih => by_cases h : p.1 == k <;> simp_all

theorem any_map_fst (es : List (String × String)) (k : String) :
    (es.map Prod.fst).any (fun x => x == k) = es.any (fun p => p.1 == k) := by
  induction es with
  | nil => rfl
  | cons p rest ih => simp_all

theorem map_fst_replace (es : List (String × String)) (k v : String) :
    (es.map (fun p => if p.1 == k then (k, v) else p)).map Prod.fst
      = es.map Prod.fst := by
  induction es with
  | nil => rfl
  | cons p rest ih =>
    by_cases h : p.1 == k
    · have : p.1 = k := by simpa using h
      simp_all
    · simp_all

theorem find_replace_self (es : List (String × String)) (k v : String)
    (h : es.any (fun p => p.1 == k) = true) :
    lookupCol k (es.map (fun p => if p.1 == k then (k, v) else p)) = some v := by
  induction es with
  | nil => simp at h
  | cons p rest ih =>
    by_cases hp : (p.1 == k) = true
    · simp [lookupCol, hp]
    · have hp' : (p.1 == k) = false := by simpa using hp
      rw [List.any_cons, hp', Bool.false_or] at h
      simp only [List.map_cons, hp', Bool.false_eq_true, if_false, lookupCol]
      exact ih h

theorem find_append_self (es : List (String × String)) (k v : String)
    (h : es.any (fun p => p.1 == k) = false) :
    lookupCol k (es ++ [(k, v)]) = some v := by
  induction es with
  | nil => simp [lookupCol]
  | cons p rest ih =>
    rw [List.any_cons, Bool.or_eq_false_iff] at h
    simp only [List.cons_append, lookupCol, h.1, Bool.false_eq_true, if_false]
    exact ih h.2

theorem lookupCol_odInsert_self (es : List (String × String)) (k v : String) :
    lookupCol k (odInsert es k v) = some v := by
  unfold odInsert
  by_cases h : es.any (fun p => p.1 == k)
  · rw [if_pos h]; exact find_replace_self es k v h
  · rw [if_neg h]
    exact find_append_self es k v (Bool.eq_false_iff.mpr h)

theorem find_replace_other (es : List (String × String)) (k k2 v : String)
    (h : (k2 == k) = false) :
    lookupCol k (es.map (fun p => if p.1 == k2 then (k2, v) else p)) = lookupCol k es := by
  induction es with
  | nil => rfl
  | cons p rest ih =>
    by_cases hp : (p.1 == k2) = true
    · have hpk2 : p.1 = k2 := by simpa using hp
      have hpk : (p.1 == k) = false := by rw [hpk2]; exact h
      simp only [List.map_cons, hp, if_true, lookupCol, h, hpk, Bool.false_eq_true, if_false]
      exact ih
    · have hp' : (p.1 == k2) = false := by simpa using hp
      by_cases hpk : (p.1 == k) = true
      · simp [lookupCol, hp', hpk]
      · have hpk' : (p.1 == k) = false := by simpa using hpk
        simp only [List.map_cons, hp', Bool.false_eq_true, if_false, lookupCol, hpk']
        exact ih

theorem find_append_other (es : List (String × String)) (k k2 v : String)
    (h : (k2 == k) = false) :
    lookupCol k (es ++ [(k2, v)]) = lookupCol k es := by
  induction es with
  | nil => simp [lookupCol, h]
  | cons p rest ih =>
    by_cases hpk : (p.1 == k) = true
    · simp [lookupCol, hpk]
    · have hpk' : (p.1 == k) = false := by simpa using hpk
      simp only [List.cons_append, lookupCol, hpk', Bool.false_eq_true, if_false]
      exact ih

theorem lookupCol_odInsert_other (es : List (String × String)) (k k2 v : String)
    (h : (k2 == k) = false) :
    lookupCol k (odInsert es k2 v) = lookupCol k es := by
  unfold odInsert
  split
  · exact find_replace_other es k k2 v h
  · exact find_append_other es k k2 v h

theorem lookupCol_odErase_self (es : List (String × String)) (k : String) :
    lookupCol k (odErase es k) = none := by
  induction es with
  | nil => rfl
  | cons p rest ih =>
    by_cases hp : (p.1 == k) = true
    · simpa only [odErase, List.filter_cons, Bool.not_eq_eq_eq_not, hp, Bool.not_true,
        Bool.false_eq_true, if_false] using ih
    · have hp' : (p.1 == k) = false := by simpa using hp
      simp only [odErase, List.filter_cons, hp', Bool.not_false, if_true, lookupCol,
        Bool.false_eq_true, if_false]
      simpa only [odErase] using ih

theorem lookupCol_odErase_other (es : List (String × String)) (k k2 : String)
    (h : (k2 == k) = false) :
    lookupCol k (odErase es k2) = lookupCol k es := by
  induction es with
  | nil => rfl
  | cons p rest ih =>
    by_cases hp : (p.1 == k2) = true
    · have hpk2 : p.1 = k2 := by simpa using hp
      have hpk : (p.1 == k) = false := by rw [hpk2]; exact h
      simp only [odErase, List.filter_cons, hp, Bool.not_true, Bool.false_eq_true, if_false,
        lookupCol, hpk]
      simpa only [odErase] using ih
    · have hp' : (p.1 == k2) = false := by simpa using hp
      by_cases hpk : (p.1 == k) = true
      · simp only [odErase, List.filter_cons, hp', Bool.not_false, if_true, lookupCol, hpk]
      · have hpk' : (p.1 == k) = false := by simpa using hpk
        simp only [odErase, List.filter_cons, hp', Bool.not_false, if_true, lookupCol, hpk',
          Bool.false_eq_true, if_false]
        simpa only [odErase] using ih

/-- The value a column holds after folding the operations over any starting
list is decided by the last operation touching it. -/
theorem lookupCol_foldl (ops : List ColOp) (k : String) (es₀ : List (String × String)) :
    lookupCol k (ops.foldl applyColOp es₀) =
      match lastOpOn k ops with
      | some (ColOp.add _ v) => some v
      | some (ColOp.remove _) => none
      | none => lookupCol k es₀ := by
  induction ops generalizing es₀ with
  | nil => simp [lastOpOn]
  | cons op rest ih =>
    rw [List.foldl_cons, ih]
    cases hl : lastOpOn k rest with
    | some o => cases o <;> simp [lastOpOn, hl]
    | none =>
      cases op with
      | add k2 v =>
        by_cases hk : k2 == k
        · have hkk : k2 = k := by simpa using hk
          subst hkk
          simp [lastOpOn, hl, applyColOp, lookupCol_odInsert_self]
        · simp [lastOpOn, hl, hk, applyColOp,
            lookupCol_odInsert_other es₀ k k2 v (by simpa using hk)]
      | remove k2 =>
        by_cases hk : k2 == k
        · have hkk : k2 = k := by simpa using hk
          subst hkk
          simp [lastOpOn, hl, applyColOp, lookupCol_odErase_self]
        · simp [lastOpOn, hl, hk, applyColOp,
            lookupCol_odErase_other es₀ k k2 (by simpa using hk)]

theorem keysNodup_applyColOp (es : List (String × String)) (op : ColOp)
    (h : (es.map Prod.fst).Nodup) : ((applyColOp es op).map Prod.fst).Nodup := by
  cases op with
  | add k v =>
    show ((odInsert es k v).map Prod.fst).Nodup
    unfold odInsert
    by_cases ha : es.any (fun p => p.1 == k)
    · rw [if_pos ha, map_fst_replace]; exact h
    · rw [if_neg ha]
      have hk : k ∉ es.map Prod.fst := by
        intro hmem
        rcases List.mem_map.mp hmem with ⟨p, hp, hpk⟩
        exact ha (List.any_eq_true.mpr ⟨p, hp, by simp [hpk]⟩)
      simp [List.nodup_append, h, hk]
  | remove k =>
    show ((odErase es k).map Prod.fst).Nodup
    unfold odErase
    rw [map_fst_filter_ne]
    exact h.filter _

theorem keysNodup_foldl (ops : List ColOp) (es₀ : List (String × String))
    (h : (es₀.map Prod.fst).Nodup) :
    ((ops.foldl applyColOp es₀).map Prod.fst).Nodup := by
  induction ops generalizing es₀ with
  | nil => exact h
  | cons op rest ih => exact ih _ (keysNodup_applyColOp es₀ op h)

/-! The declaration-order characterization of the effective column fold. -/

theorem beq_symm_false (a b : String) (h : (a == b) = false) : (b == a) = false := by
  rw [beq_eq_false_iff_ne] at h ⊢
  exact fun e => h e.symm

theorem noRemove_cons_add (k k2 v : String) (ops : List ColOp) :
    noRemove k (ColOp.add k2 v :: ops) = noRemove k ops := by
  simp [noRemove, removesCol]

theorem noRemove_cons_remove (k k2 : String) (ops : List ColOp) :
    noRemove k (ColOp.remove k2 :: ops) = (!(k2 == k) && noRemove k ops) := by
  simp [noRemove, removesCol]

theorem lastAdd_cons_remove (k k2 : String) (ops : List ColOp) :
    lastAdd k (ColOp.remove k2 :: ops) = lastAdd k ops := by
  cases h : lastAdd k ops <;> simp [lastAdd, h]

theorem lastAdd_cons_add_self (k v : String) (ops : List ColOp) :
    lastAdd k (ColOp.add k v :: ops) = some ((lastAdd k ops).getD v) := by
  cases h : lastAdd k ops <;> simp [lastAdd, h]

theorem lastAdd_cons_add_other (k k2 v : String) (h : (k2 == k) = false)
    (ops : List ColOp) :
    lastAdd k (ColOp.add k2 v :: ops) = lastAdd k ops := by
  cases h2 : lastAdd k ops <;> simp [lastAdd, h2, h]

theorem stayPart_nil (es : List (String × String)) : stayPart es [] = es := by
  induction es with
  | nil => rfl
  | cons p es ih => simp [stayPart, noRemove, lastAdd, ih]

theorem stayPart_append (a b : List (String × String)) (ops : List ColOp) :
    stayPart (a ++ b) ops = stayPart a ops ++ stayPart b ops := by
  induction a with
  | nil => rfl
  | cons p a ih => simp [stayPart, ih]

theorem stayPart_single (k v : String) (ops : List ColOp) :
    stayPart [(k, v)] ops =
      if noRemove k ops then [(k, (lastAdd k ops).getD v)] else [] := by
  simp [stayPart]

theorem stayPart_replace (es : List (String × String)) (k v : String) (rest : List ColOp) :
    stayPart (es.map (fun p => if p.1 == k then (k, v) else p)) rest
      = stayPart es (ColOp.add k v :: rest) := by
  induction es with
  | nil => rfl
  | cons p es ih =>
    by_cases hp : (p.1 == k) = true
    · have hpk : p.1 = k := by simpa using hp
      subst hpk
      simp only [List.map_cons, hp, if_true, stayPart, noRemove_cons_add,
        lastAdd_cons_add_self, Option.getD_some, ih]
    · have hp' : (p.1 == k) = false := by simpa using hp
      have hk' : (k == p.1) = false := beq_symm_false p.1 k hp'
      simp only [List.map_cons, hp', Bool.false_eq_true, if_false, stayPart,
        noRemove_cons_add, lastAdd_cons_add_other p.1 k v hk', ih]

theorem stayPart_add_not_mem (es : List (String × String)) (k v : String)
    (rest : List ColOp) (h : es.any (fun p => p.1 == k) = false) :
    stayPart es (ColOp.add k v :: rest) = stayPart es rest := by
  induction es with
  | nil => rfl
  | cons p es ih =>
    rw [List.any_cons, Bool.or_eq_false_iff] at h
    have hk' : (k == p.1) = false := beq_symm_false p.1 k h.1
    simp only [stayPart, noRemove_cons_add, lastAdd_cons_add_other p.1 k v hk', ih h.2]

theorem stayPart_remove (es : List (String × String)) (k : String) (rest : List ColOp) :
    stayPart (odErase es k) rest = stayPart es (ColOp.remove k :: rest) := by
  induction es with
  | nil => rfl
  | cons p es ih =>
    by_cases hp : (p.1 == k) = true
    · have hk' : (k == p.1) = true := by
        have : p.1 = k := by simpa using hp
        simp [this]
      simp only [odErase, List.filter_cons, hp, Bool.not_true, Bool.false_eq_true, if_false,
        stayPart, noRemove_cons_remove, hk', Bool.false_and, List.nil_append]
      simpa only [odErase] using ih
    · have hp' : (p.1 == k) = false := by simpa using hp
      have hk' : (k == p.1) = false := beq_symm_false p.1 k hp'
      simp only [odErase, List.filter_cons, hp', Bool.not_false, if_true, stayPart,
        noRemove_cons_remove, hk', Bool.true_and, lastAdd_cons_remove]
      have ih' := ih
      simp only [odErase] at ih'
      rw [ih']

/-- Master characterization: folding the column operations over any starting
list yields the surviving start entries (in place, with updated definitions)
followed by the freshly declared columns in first-declaration order, each
appearing once with its last definition, removals always winning. -/
theorem foldl_applyColOp_eq (ops : List ColOp) (es₀ : List (String × String)) :
    ops.foldl applyColOp es₀ = stayPart es₀ ops ++ freshList ops (es₀.map Prod.fst) := by
  induction ops generalizing es₀ with
  | nil => simp [freshList, stayPart_nil]
  | cons op rest ih =>
    cases op with
    | add k v =>
      rw [List.foldl_cons, ih]
      by_cases ha : es₀.any (fun p => p.1 == k) = true
      · have h1 : applyColOp es₀ (ColOp.add k v)
            = es₀.map (fun p => if p.1 == k then (k, v) else p) := by
          simp [applyColOp, odInsert, ha]
        have hc : (es₀.map Prod.fst).any (fun x => x == k) = true := by
          rw [any_map_fst]; exact ha
        rw [h1, map_fst_replace, stayPart_replace]
        simp [freshList, hc]
      · have ha' : es₀.any (fun p => p.1 == k) = false := Bool.eq_false_iff.mpr ha
        have h1 : applyColOp es₀ (ColOp.add k v) = es₀ ++ [(k, v)] := by
          simp [applyColOp, odInsert, ha']
        have hc : (es₀.map Prod.fst).any (fun x => x == k) = false := by
          rw [any_map_fst]; exact ha'
        rw [h1, show (es₀ ++ [(k, v)]).map Prod.fst = es₀.map Prod.fst ++ [k] by simp,
          stayPart_append, stayPart_single, stayPart_add_not_mem es₀ k v rest ha']
        simp [freshList, hc, List.append_assoc]
    | remove k =>
      rw [List.foldl_cons, ih]
      have h1 : applyColOp es₀ (ColOp.remove k) = odErase es₀ k := rfl
      have h2 : (odErase es₀ k).map Prod.fst
          = (es₀.map Prod.fst).filter (fun x => !(x == k)) := map_fst_filter_ne es₀ k
      rw [h1, h2, stayPart_remove]
      simp [freshList]

/-! Guardedness of the emitted statements. -/

/-- A statement text counts as guarded when it contains an existence guard or
an OR REPLACE form. -/
def guarded (s : String) : Bool :=
  containsSub s "IF NOT EXISTS" || containsSub s "IF EXISTS" || containsSub s "OR REPLACE"

theorem listOccurs_append_right (n h₁ h₂ : List Char)
    (h : listOccurs n h₂ = true) : listOccurs n (h₁ ++ h₂) = true := by
  induction h₁ with
  | nil => simpa using h
  | cons c t ih =>
    simp only [List.cons_append, listOccurs, Bool.or_eq_true]
    right
    exact ih

theorem guarded_of_ifne (s : String) (h : containsSub s "IF NOT EXISTS" = true) :
    guarded s = true := by simp [guarded, h]

theorem guarded_of_ife (s : String) (h : containsSub s "IF EXISTS" = true) :
    guarded s = true := by simp [guarded, h]

theorem guarded_of_orr (s : String) (h : containsSub s "OR REPLACE" = true) :
    guarded s = true := by simp [guarded, h]

theorem guarded_extStmt (n : String) : guarded (extStmt n) = true := by
  apply guarded_of_ifne
  unfold extStmt containsSub
  simp only [String.data_append, List.append_assoc]
  rfl

theorem guarded_addColumnStmt (t d : String) : guarded (addColumnStmt t d) = true := by
  apply guarded_of_ifne
  unfold addColumnStmt containsSub
  simp only [String.data_append, List.append_assoc]
  apply listOccurs_append_right
  apply listOccurs_append_right
  rfl

theorem guarded_dropConstraintStmt (t n : String) :
    guarded (dropConstraintStmt t n) = true := by
  apply guarded_of_ife
  unfold dropConstraintStmt containsSub
  simp only [String.data_append, List.append_assoc]
  apply listOccurs_append_right
  apply listOccurs_append_right
  rfl

theorem guarded_dropColumnStmt (t c : String) : guarded (dropColumnStmt t c) = true := by
  apply guarded_of_ife
  unfold dropColumnStmt containsSub
  simp only [String.data_append, List.append_assoc]
  apply listOccurs_append_right
  apply listOccurs_append_right
  rfl

theorem guarded_fkDropStmt (t c : String) : guarded (fkDropStmt t c) = true := by
  apply guarded_of_ife
  unfold fkDropStmt containsSub
  simp only [String.data_append, List.append_assoc]
  apply listOccurs_append_right
  apply listOccurs_append_right
  rfl

theorem guarded_dropIndexStmt (n : String) : guarded (dropIndexStmt n) = true := by
  apply guarded_of_ife
  unfold dropIndexStmt containsSub
  simp only [String.data_append, List.append_assoc]
  rfl

theorem guarded_createIndexStmt (n t cols : String) :
    guarded (createIndexStmt n t cols) = true := by
  apply guarded_of_ifne
  unfold createIndexStmt containsSub
  simp only [String.data_append, List.append_assoc]
  rfl

theorem guarded_createTableStmt (t : String) (defs : List String) :
    guarded (createTableStmt t defs) = true := by
  apply guarded_of_ifne
  unfold createTableStmt containsSub
  simp only [String.data_append, List.append_assoc]
  rfl

theorem guarded_likeStmt (h t : String) : guarded (likeStmt h t) = true := by
  apply guarded_of_ifne
  unfold likeStmt containsSub
  simp only [String.data_append, List.append_assoc]
  rfl

theorem guarded_trigFnStmt (t h cl nv ov : String) :
    guarded (trigFnStmt t h cl nv ov) = true := by
  apply guarded_of_orr
  unfold trigFnStmt containsSub
  simp only [String.data_append, List.append_assoc]
  rfl

theorem guarded_dropTrigStmt (t : String) : guarded (dropTrigStmt t) = true := by
  apply guarded_of_ife
  unfold dropTrigStmt containsSub
  simp only [String.data_append, List.append_assoc]
  rfl

theorem guarded_dropTableStmt (n : String) : guarded (dropTableStmt n) = true := by
  apply guarded_of_ife
  unfold dropTableStmt containsSub
  simp only [String.data_append, List.append_assoc]
  rfl

theorem guarded_dropHistTableStmt (n : String) :
    guarded (dropHistTableStmt n) = true := by
  apply guarded_of_ife
  unfold dropHistTableStmt containsSub
  simp only [String.data_append, List.append_assoc]
  rfl

/-- The unguarded creation statements of the generator, each paired with the
guarded drop of the same object that the generator emits earlier. -/
def pairedDrop (d s : String) : Prop :=
  (∃ t n c, s = addUniqueStmt t n c ∧ d = dropConstraintStmt t n)
  ∨ (∃ t c rT rC od ou, s = fkAddStmt t c rT rC od ou ∧ d = fkDropStmt t c)
  ∨ (∃ h, s = histPkAddStmt h ∧ d = dropConstraintStmt h (h ++ "_historyid_pkey"))
  ∨ (∃ n t cols, s = createIndexBareStmt n t cols ∧ d = dropIndexStmt n)
  ∨ (∃ t, s = createTrigStmt t ∧ d = dropTrigStmt t)

/-- Each statement of the list is guarded, or the drop paired with it occurs
earlier — among the prior statements or among the earlier list elements. -/
def dropGuardedOKr (prior : List String) : List String → Prop
  | [] => True
  | s :: rest =>
    (guarded s = true ∨ ∃ d ∈ prior, pairedDrop d s)
      ∧ dropGuardedOKr (prior ++ [s]) rest

theorem dropGuardedOKr_elim (prior stmts : List String)
    (h : dropGuardedOKr prior stmts) :
    ∀ pre s post, stmts = pre ++ s :: post →
      guarded s = true ∨ ∃ d ∈ prior ++ pre, pairedDrop d s := by
  intro pre
  induction pre generalizing prior stmts with
  | nil =>
    intro s post heq
    subst heq
    rcases h.1 with hg | ⟨d, hd, hp⟩
    · exact Or.inl hg
    · exact Or.inr ⟨d, by simpa using hd, hp⟩
  | cons a pre ih =>
    intro s post heq
    subst heq
    have h2 := h.2
    have := ih (prior ++ [a]) (pre ++ s :: post) h2 s post rfl
    rcases this with hg | ⟨d, hd, hp⟩
    · exact Or.inl hg
    · refine Or.inr ⟨d, ?_, hp⟩
      simpa [List.append_assoc] using hd

theorem dropGuardedOKr_append (prior A B : List String)
    (hA : dropGuardedOKr prior A) (hB : dropGuardedOKr (prior ++ A) B) :
    dropGuardedOKr prior (A ++ B) := by
  induction A generalizing prior with
  | nil => simpa using hB
  | cons a A ih =>
    refine ⟨hA.1, ih (prior ++ [a]) hA.2 ?_⟩
    simpa [List.append_assoc] using hB

theorem dropGuardedOKr_of_forall (prior l : List String)
    (h : ∀ s ∈ l, guarded s = true ∨ ∃ d ∈ prior, pairedDrop d s) :
    dropGuardedOKr prior l := by
  induction l generalizing prior with
  | nil => trivial
  | cons s rest ih =>
    refine ⟨h s (List.mem_cons_self s rest), ih (prior ++ [s]) ?_⟩
    intro s2 hs2
    rcases h s2 (List.mem_cons_of_mem s hs2) with hg | ⟨d, hd, hp⟩
    · exact Or.inl hg
    · exact Or.inr ⟨d, List.mem_append_left _ hd, hp⟩

theorem dropGuardedOKr_of_all_guarded (prior l : List String)
    (h : ∀ s ∈ l, guarded s = true) : dropGuardedOKr prior l :=
  dropGuardedOKr_of_forall prior l (fun s hs => Or.inl (h s hs))

theorem dropGuardedOKr_nil (prior : List String) : dropGuardedOKr prior [] := trivial

theorem dropGuardedOKr_singleton (prior : List String) (s : String)
    (h : guarded s = true) : dropGuardedOKr prior [s] :=
  ⟨Or.inl h, trivial⟩

theorem dropGuardedOKr_pair (prior : List String) (d s : String)
    (hd : guarded d = true) (hp : pairedDrop d s) : dropGuardedOKr prior [d, s] :=
  ⟨Or.inl hd, ⟨Or.inr ⟨d, by simp, hp⟩, trivial⟩⟩

theorem childAlterOps_ok (t : String) (c : Child) (prior : List String) :
    dropGuardedOKr prior (childAlterOps t c) := by
  unfold childAlterOps
  repeat' split
  all_goals try exact dropGuardedOKr_nil _
  · exact dropGuardedOKr_append _ _ _
      (dropGuardedOKr_singleton _ _ (guarded_addColumnStmt _ _))
      (dropGuardedOKr_pair _ _ _ (guarded_dropConstraintStmt _ _)
        (Or.inl ⟨t, _, _, rfl, rfl⟩))
  · exact dropGuardedOKr_append _ _ _
      (dropGuardedOKr_singleton _ _ (guarded_addColumnStmt _ _))
      (dropGuardedOKr_nil _)
  · exact dropGuardedOKr_singleton _ _ (guarded_dropColumnStmt _ _)
  · exact dropGuardedOKr_pair _ _ _ (guarded_dropIndexStmt _)
      (Or.inr (Or.inr (Or.inr (Or.inl ⟨_, t, _, rfl, rfl⟩))))
  · exact dropGuardedOKr_singleton _ _ (guarded_createIndexStmt _ _ _)
  · exact dropGuardedOKr_singleton _ _ (guarded_dropIndexStmt _)

theorem flatMap_childAlterOps_ok (t : String) (children : List Child)
    (prior : List String) :
    dropGuardedOKr prior (children.flatMap (childAlterOps t)) := by
  induction children generalizing prior with
  | nil => exact dropGuardedOKr_nil _
  | cons c rest ih =>
    rw [List.flatMap_cons]
    exact dropGuardedOKr_append _ _ _ (childAlterOps_ok t c prior) (ih _)

theorem childFkDrop_guarded (t : String) (c : Child) (s : String)
    (h : childFkDrop t c = some s) : guarded s = true := by
  unfold childFkDrop at h
  repeat' split at h
  all_goals simp_all
  rw [← h]
  exact guarded_fkDropStmt _ _

theorem fkAdds_ok (t : String) (children : List Child) (prior : List String)
    (hsub : ∀ s, s ∈ children.filterMap (childFkDrop t) → s ∈ prior) :
    dropGuardedOKr prior (children.filterMap (childFkAdd t)) := by
  apply dropGuardedOKr_of_forall
  intro s hs
  rcases List.mem_filterMap.mp hs with ⟨c, hc, hcs⟩
  right
  unfold childFkAdd at hcs
  split at hcs
  case isFalse => exact absurd hcs (by simp)
  rename_i htag
  split at hcs
  case h_2 => exact absurd hcs (by simp)
  rename_i fc rT rC h1 h2 h3
  have hs2 : s = fkAddStmt t fc rT rC (truthyAttr c.attrib "onDelete")
      (truthyAttr c.attrib "onUpdate") := (Option.some.inj hcs).symm
  refine ⟨fkDropStmt t fc, hsub _ ?_, Or.inr (Or.inl ⟨t, fc, rT, rC, _, _, hs2, rfl⟩)⟩
  exact List.mem_filterMap.mpr ⟨c, hc, by simp [childFkDrop, htag, h1, h2, h3]⟩

theorem historySegment_ok (t : String) (children : List Child)
    (eff : List (String × String)) (prior : List String) :
    dropGuardedOKr prior (historySegment t children eff) := by
  unfold historySegment
  refine dropGuardedOKr_append _ _ _ ?_ ?_
  · refine dropGuardedOKr_append _ _ _ ?_ ?_
    · refine dropGuardedOKr_append _ _ _ ?_ ?_
      · refine dropGuardedOKr_append _ _ _ ?_ ?_
        · refine dropGuardedOKr_append _ _ _ ?_ ?_
          · exact dropGuardedOKr_singleton _ _ (guarded_likeStmt _ _)
          · apply dropGuardedOKr_of_all_guarded
            intro s hs
            rcases List.mem_map.mp hs with ⟨p, _, hp⟩
            rw [← hp]
            exact guarded_addColumnStmt _ _
        · apply dropGuardedOKr_of_all_guarded
          intro s hs
          rcases List.mem_filterMap.mp hs with ⟨c, _, hcs⟩
          split at hcs
          · rw [← Option.some.inj hcs]
            exact guarded_dropConstraintStmt _ _
          · exact absurd hcs (by simp)
      · apply dropGuardedOKr_of_all_guarded
        intro s hs
        rcases List.mem_filterMap.mp hs with ⟨c, _, hcs⟩
        split at hcs
        · split at hcs
          · rw [← Option.some.inj hcs]
            exact guarded_dropConstraintStmt _ _
          · exact absurd hcs (by simp)
        · exact absurd hcs (by simp)
    · rw [show [addColumnStmt ("History_" ++ t) "historyid SERIAL",
          dropConstraintStmt ("History_" ++ t) ("History_" ++ t ++ "_historyid_pkey"),
          histPkAddStmt ("History_" ++ t),
          addColumnStmt ("History_" ++ t) "changed_at TIMESTAMP DEFAULT now()",
          addColumnStmt ("History_" ++ t) "operation TEXT"]
          = [addColumnStmt ("History_" ++ t) "historyid SERIAL"]
            ++ ([dropConstraintStmt ("History_" ++ t) ("History_" ++ t ++ "_historyid_pkey"),
                 histPkAddStmt ("History_" ++ t)]
              ++ [addColumnStmt ("History_" ++ t) "changed_at TIMESTAMP DEFAULT now()",
                  addColumnStmt ("History_" ++ t) "operation TEXT"]) from rfl]
      refine dropGuardedOKr_append _ _ _
        (dropGuardedOKr_singleton _ _ (guarded_addColumnStmt _ _))
        (dropGuardedOKr_append _ _ _ ?_ ?_)
      · exact dropGuardedOKr_pair _ _ _ (guarded_dropConstraintStmt _ _)
          (Or.inr (Or.inr (Or.inl ⟨"History_" ++ t, rfl, rfl⟩)))
      · exact dropGuardedOKr_of_all_guarded _ _ (by
          intro s hs
          simp only [List.mem_cons, List.not_mem_nil, or_false] at hs
          rcases hs with h | h <;> (subst h; exact guarded_addColumnStmt _ _))
  · split
    · exact dropGuardedOKr_nil _
    · rw [show [trigFnStmt t ("History_" ++ t)
          (String.intercalate ", " (eff.map Prod.fst))
          (String.intercalate ", " (eff.map (fun p => "NEW." ++ p.1)))
          (String.intercalate ", " (eff.map (fun p => "OLD." ++ p.1))),
          dropTrigStmt t, createTrigStmt t]
          = [trigFnStmt t ("History_" ++ t)
              (String.intercalate ", " (eff.map Prod.fst))
              (String.intercalate ", " (eff.map (fun p => "NEW." ++ p.1)))
              (String.intercalate ", " (eff.map (fun p => "OLD." ++ p.1)))]
            ++ [dropTrigStmt t, createTrigStmt t] from rfl]
      refine dropGuardedOKr_append _ _ _
        (dropGuardedOKr_singleton _ _ (guarded_trigFnStmt _ _ _ _ _)) ?_
      exact dropGuardedOKr_pair _ _ _ (guarded_dropTrigStmt _)
        (Or.inr (Or.inr (Or.inr (Or.inr ⟨t, rfl, rfl⟩))))

theorem processCommand_ok (cmd : Command) (prior : List String) :
    dropGuardedOKr prior (processCommand cmd) := by
  unfold processCommand
  split
  · split
    · exact dropGuardedOKr_singleton _ _ (guarded_extStmt _)
    · exact dropGuardedOKr_nil _
  · split
    · split
      · rename_i t ht
        rw [foldl_processChild_eq]
        simp only [List.nil_append]
        refine dropGuardedOKr_append _ _ _ ?_ ?_
        · refine dropGuardedOKr_append _ _ _ ?_ ?_
          · refine dropGuardedOKr_append _ _ _ ?_ ?_
            · refine dropGuardedOKr_append _ _ _ ?_ ?_
              · apply dropGuardedOKr_of_all_guarded
                intro s hs
                rcases List.mem_filterMap.mp hs with ⟨c, _, hcs⟩
                exact childFkDrop_guarded t c s hcs
              · split
                · exact dropGuardedOKr_nil _
                · exact dropGuardedOKr_singleton _ _ (guarded_createTableStmt _ _)
            · exact flatMap_childAlterOps_ok t _ _
          · apply fkAdds_ok
            intro s hs
            exact List.mem_append_right _
              (List.mem_append_left _ (List.mem_append_left _ hs))
        · by_cases hh : ["true", "yes", "1"].contains (pyLower (getAttrD cmd.attrib "history" "")) = true
          · rw [if_pos hh]
            exact historySegment_ok _ _ _ _
          · rw [if_neg hh]
            exact dropGuardedOKr_nil _
      · exact dropGuardedOKr_nil _
    · split
      · split
        · exact dropGuardedOKr_append _ _ _
            (dropGuardedOKr_singleton _ _ (guarded_dropTableStmt _))
            (dropGuardedOKr_singleton _ _ (guarded_dropHistTableStmt _))
        · exact dropGuardedOKr_nil _
      · exact dropGuardedOKr_nil _

theorem flatMap_processCommand_ok (doc : List Command) (prior : List String) :
    dropGuardedOKr prior (doc.flatMap processCommand) := by
  induction doc generalizing prior with
  | nil => exact dropGuardedOKr_nil _
  | cons cmd rest ih =>
    rw [List.flatMap_cons]
    exact dropGuardedOKr_append _ _ _ (processCommand_ok cmd prior) (ih _)

/-! Case insensitivity of the type mapper. -/

theorem pyUpperChar_idem (c : Char) : pyUpperChar (pyUpperChar c) = pyUpperChar c := by
  unfold pyUpperChar
  by_cases h : 97 ≤ c.toNat ∧ c.toNat ≤ 122
  · rw [if_pos h]
    obtain ⟨h1, h2⟩ := h
    generalize c.toNat = n at h1 h2 ⊢
    interval_cases n <;> decide
  · rw [if_neg h, if_neg h]

theorem pyUpper_idem (s : String) : pyUpper (pyUpper s) = pyUpper s := by
  unfold pyUpper
  refine congrArg String.mk ?_
  show (s.data.map pyUpperChar).map pyUpperChar = s.data.map pyUpperChar
  rw [List.map_map]
  exact List.map_congr_left (fun c _ => pyUpperChar_idem c)

/-! Specification-side twins: the Type Mapper rules and the default-value
dispatch exactly as the spec words them. -/

/-- Modelled on the wording of the spec, section 4.1: rules checked in order,
first match wins — exact UUID, exact SERIAL, prefix VARCHAR or exact TEXT,
prefix INT or exact INTEGER, exact BOOLEAN, prefix TIMESTAMP with a
withTimezone option when the string contains WITH TIME ZONE, prefix DATE,
exact JSON, exact JSONB, prefix DECIMAL or NUMERIC with precision and scale
extracted by the NAME(p, s) pattern when present, and a silent fallback to
text for everything unmatched; matching is case-insensitive. -/
def specTypeMapper (ty : String) : String × List (String × String) :=
  let u := pyUpper ty
  if u == "UUID" then ("uuid", [])
  else if u == "SERIAL" then ("serial", [])
  else if pyStartsWith u "VARCHAR" || u == "TEXT" then ("text", [])
  else if pyStartsWith u "INT" || u == "INTEGER" then ("integer", [])
  else if u == "BOOLEAN" then ("boolean", [])
  else if pyStartsWith u "TIMESTAMP" then
    (if containsSub u "WITH TIME ZONE" then ("timestamp", [("withTimezone", "true")])
     else ("timestamp", []))
  else if pyStartsWith u "DATE" then ("date", [])
  else if u == "JSON" then ("json", [])
  else if u == "JSONB" then ("jsonb", [])
  else if pyStartsWith u "DECIMAL" || pyStartsWith u "NUMERIC" then
    (match matchPrecScale u.data with
     | some pr => ("decimal", [("precision", pr.1), ("scale", pr.2)])
     | none => ("decimal", []))
  else ("text", [])

/-- Modelled on the wording of the spec, sections 4.4 and 9: a verbatim
pass-through for a raw SQL-escape wrapper, a dedicated now marker for now(),
a dedicated UUID-generation marker for uuid_generate_v4(), else a literal
default wrapped in single quotes exactly when the mapped type is textual and
the value does not already begin with a quote character. -/
def specDefaultClause (mappedType v : String) : String :=
  if pyStartsWith v "sql\x60" && pyEndsWith v "\x60" then ".default(" ++ v ++ ")"
  else if v == "now()" then ".defaultNow()"
  else if v == "uuid_generate_v4()" then ".default(sql\x60uuid_generate_v4()\x60)"
  else if (mappedType == "text" || mappedType == "varchar")
      && !(pyStartsWith v "\x27" || pyStartsWith v "\"") then
    ".default(" ++ ("\x27" ++ v ++ "\x27") ++ ")"
  else ".default(" ++ v ++ ")"

/-! Skipping of elements that miss a required attribute. -/

/-- A child element of addTable that the generators skip for lack of a
required (present and nonempty) attribute. -/
def invalidChild (c : Child) : Prop :=
  (c.tag = "addColumn"
    ∧ (truthyAttr c.attrib "name" = none ∨ truthyAttr c.attrib "type" = none))
  ∨ (c.tag = "removeColumn" ∧ truthyAttr c.attrib "name" = none)
  ∨ (c.tag = "addForeignKey"
    ∧ (truthyAttr c.attrib "column" = none ∨ truthyAttr c.attrib "refTable" = none
        ∨ truthyAttr c.attrib "refColumn" = none))
  ∨ (c.tag = "addIndex"
    ∧ (truthyAttr c.attrib "name" = none ∨ truthyAttr c.attrib "columns" = none))
  ∨ (c.tag = "removeIndex" ∧ truthyAttr c.attrib "name" = none)

/-- Excludes the two shapes of invalid children that the history rescans of
lines 156-166 still react to: an addColumn carrying primaryKey true, and an
addForeignKey carrying a nonempty column attribute. -/
def historySafe (c : Child) : Prop :=
  ¬(c.tag = "addColumn" ∧ pyLower (getAttrD c.attrib "primaryKey" "false") = "true")
  ∧ ¬(c.tag = "addForeignKey" ∧ truthyAttr c.attrib "column" ≠ none)

theorem invalidChild_contributes_nothing (t : String) (c : Child)
    (h : invalidChild c) :
    childAlterOps t c = [] ∧ childColOp c = none ∧ childFkDrop t c = none
      ∧ childFkAdd t c = none := by
  rcases h with ⟨ht, hn⟩ | ⟨ht, hn⟩ | ⟨ht, hn⟩ | ⟨ht, hn⟩ | ⟨ht, hn⟩
  · rcases hn with hn | hn <;>
      cases h1 : truthyAttr c.attrib "name" <;> cases h2 : truthyAttr c.attrib "type" <;>
      simp_all [childAlterOps, childColOp, childFkDrop, childFkAdd]
  · simp_all [childAlterOps, childColOp, childFkDrop, childFkAdd]
  · rcases hn with hn | hn | hn <;>
      cases h1 : truthyAttr c.attrib "column" <;>
      cases h2 : truthyAttr c.attrib "refTable" <;>
      cases h3 : truthyAttr c.attrib "refColumn" <;>
      simp_all [childAlterOps, childColOp, childFkDrop, childFkAdd]
  · rcases hn with hn | hn <;>
      cases h1 : truthyAttr c.attrib "name" <;> cases h2 : truthyAttr c.attrib "columns" <;>
      simp_all [childAlterOps, childColOp, childFkDrop, childFkAdd]
  · simp_all [childAlterOps, childColOp, childFkDrop, childFkAdd]

theorem historySegment_skip_child (t : String) (pre post : List Child) (bad : Child)
    (eff : List (String × String)) (hs : historySafe bad) :
    historySegment t (pre ++ bad :: post) eff = historySegment t (pre ++ post) eff := by
  have h1 : ¬(bad.tag = "addColumn"
      ∧ pyLower (getAttrD bad.attrib "primaryKey" "false") = "true") := hs.1
  have h2 : truthyAttr bad.attrib "column" = none ∨ ¬bad.tag = "addForeignKey" := by
    rcases hs with ⟨_, hs2⟩
    by_cases hb : bad.tag = "addForeignKey"
    · left
      by_contra hne
      exact hs2 ⟨hb, hne⟩
    · right; exact hb
  unfold historySegment
  rcases h2 with h2 | h2 <;>
    simp [List.filterMap_append, List.filterMap_cons, h1, h2]

/-- Definitional unfolding of processCommand on an addTable element. -/
theorem processCommand_addTable (attrs : List (String × String)) (children : List Child) :
    processCommand ⟨"addTable", attrs, children⟩
      = match truthyAttr attrs "name" with
        | some t =>
          let st := children.foldl (processChild t) ⟨[], [], [], []⟩
          st.immediate
            ++ (if st.effectiveColumns.isEmpty then []
                else [createTableStmt t (st.effectiveColumns.map Prod.snd)])
            ++ st.alterOps ++ st.foreignKeys
            ++ (if ["true", "yes", "1"].contains (pyLower (getAttrD attrs "history" "")) then
                  historySegment t children st.effectiveColumns
                else [])
        | none => [] := rfl

/-- Definitional unfolding of processCommand on a createExtension element. -/
theorem processCommand_createExtension (attrs : List (String × String))
    (children : List Child) :
    processCommand ⟨"createExtension", attrs, children⟩
      = match truthyAttr attrs "name" with
        | some n => [extStmt n]
        | none => [] := rfl

/-- Definitional unfolding of processCommand on a removeTable element. -/
theorem processCommand_removeTable (attrs : List (String × String))
    (children : List Child) :
    processCommand ⟨"removeTable", attrs, children⟩
      = match truthyAttr attrs "name" with
        | some n => [dropTableStmt n, dropHistTableStmt n]
        | none => [] := rfl

theorem processCommand_skip_child (attrs : List (String × String))
    (pre post : List Child) (bad : Child) (hinv : invalidChild bad)
    (hs : ["true", "yes", "1"].contains (pyLower (getAttrD attrs "history" "")) = false
      ∨ historySafe bad) :
    processCommand ⟨"addTable", attrs, pre ++ bad :: post⟩
      = processCommand ⟨"addTable", attrs, pre ++ post⟩ := by
  rw [processCommand_addTable, processCommand_addTable]
  cases hname : truthyAttr attrs "name" with
  | none => rfl
  | some t =>
    obtain ⟨ha, hc, hd, hf⟩ := invalidChild_contributes_nothing t bad hinv
    dsimp only
    rw [foldl_processChild_eq, foldl_processChild_eq]
    dsimp only
    have e1 : (pre ++ bad :: post).flatMap (childAlterOps t)
        = (pre ++ post).flatMap (childAlterOps t) := by
      simp [List.flatMap_append, List.flatMap_cons, ha]
    have e2 : (pre ++ bad :: post).filterMap childColOp
        = (pre ++ post).filterMap childColOp := by
      simp [List.filterMap_append, List.filterMap_cons, hc]
    have e3 : (pre ++ bad :: post).filterMap (childFkDrop t)
        = (pre ++ post).filterMap (childFkDrop t) := by
      simp [List.filterMap_append, List.filterMap_cons, hd]
    have e4 : (pre ++ bad :: post).filterMap (childFkAdd t)
        = (pre ++ post).filterMap (childFkAdd t) := by
      simp [List.filterMap_append, List.filterMap_cons, hf]
    simp only [e1, e2, e3, e4, List.nil_append]
    rcases hs with hs | hs
    · have hs' : ¬(["true", "yes", "1"].contains (pyLower (getAttrD attrs "history" "")) = true) := by
        rw [hs]
        exact Bool.false_ne_true
      rw [if_neg hs', if_neg hs']
    · by_cases hh : ["true", "yes", "1"].contains (pyLower (getAttrD attrs "history" "")) = true
      · rw [if_pos hh, if_pos hh, historySegment_skip_child t pre post bad _ hs]
      · rw [if_neg hh, if_neg hh]

theorem processCommand_noname (cmd : Command)
    (htag : cmd.tag = "createExtension" ∨ cmd.tag = "addTable" ∨ cmd.tag = "removeTable")
    (hname : truthyAttr cmd.attrib "name" = none) :
    processCommand cmd = [] := by
  obtain ⟨tag, attrs, children⟩ := cmd
  dsimp only at htag hname
  rcases htag with h | h | h <;> subst h
  · rw [processCommand_createExtension, hname]
  · rw [processCommand_addTable, hname]
  · rw [processCommand_removeTable, hname]

/-! Characterizations of the Drizzle emitter output. -/

/-- The column line a child contributes to the Drizzle table definition. -/
def childDrizzleCol (c : Child) : Option String :=
  if c.tag == "addColumn" then
    match truthyAttr c.attrib "name", truthyAttr c.attrib "type" with
    | some n, some ty => some (drizzleColDef c n ty)
    | _, _ => none
  else none

theorem drizzleColStep_fst (t : String) (acc : List String × List String) (c : Child) :
    (drizzleColStep t acc c).1 = acc.1 ++ (childDrizzleCol c).toList := by
  unfold drizzleColStep childDrizzleCol
  repeat' split
  all_goals simp_all

theorem drizzleColumns_foldl_fst (t : String) (children : List Child)
    (acc : List String × List String) :
    (children.foldl (drizzleColStep t) acc).1 = acc.1 ++ children.filterMap childDrizzleCol := by
  induction children generalizing acc with
  | nil => simp
  | cons c rest ih =>
    rw [List.foldl_cons, ih, drizzleColStep_fst]
    cases h : childDrizzleCol c <;> simp [List.filterMap_cons, h]

theorem drizzleColumns_fst (t : String) (children : List Child) :
    (drizzleColumns t children).1 = children.filterMap childDrizzleCol := by
  unfold drizzleColumns
  rw [drizzleColumns_foldl_fst]
  simp

/-- The table-definition block a top-level element contributes to the Drizzle
output text. -/
def tableDefOf (cmd : Command) : Option String :=
  if cmd.tag == "addTable" then
    match truthyAttr cmd.attrib "name" with
    | some t => some (drizzleTableDef t (drizzleColumns t cmd.children).1)
    | none => none
  else none

theorem drizzleStep_fst (acc : List String × List String) (cmd : Command) :
    (drizzleStep acc cmd).1 = acc.1 ++ (tableDefOf cmd).toList := by
  unfold drizzleStep tableDefOf
  repeat' split
  all_goals simp_all

theorem drizzle_foldl_fst (doc : List Command) (acc : List String × List String) :
    (doc.foldl drizzleStep acc).1 = acc.1 ++ doc.filterMap tableDefOf := by
  induction doc generalizing acc with
  | nil => simp
  | cons cmd rest ih =>
    rw [List.foldl_cons, ih, drizzleStep_fst]
    cases h : tableDefOf cmd <;> simp [List.filterMap_cons, h]

theorem generate_drizzle_fst (doc : List Command) :
    (generate_drizzle doc).1
      = drizzleImports ++ String.intercalate "\n" (doc.filterMap tableDefOf) ++ "\n" := by
  unfold generate_drizzle
  dsimp only
  rw [drizzle_foldl_fst]
  simp

theorem drizzle_foldl_filter (doc : List Command) (acc : List String × List String) :
    doc.foldl drizzleStep acc
      = (doc.filter (fun cmd => cmd.tag == "addTable")).foldl drizzleStep acc := by
  induction doc generalizing acc with
  | nil => rfl
  | cons cmd rest ih =>
    rw [List.foldl_cons, List.filter_cons]
    by_cases h : (cmd.tag == "addTable") = true
    · simp only [h, if_true, List.foldl_cons]
      exact ih _
    · have h' : (cmd.tag == "addTable") = false := Bool.eq_false_iff.mpr h
      have hstep : drizzleStep acc cmd = acc := by simp [drizzleStep, h']
      simp only [h', Bool.false_eq_true, if_false, hstep]
      exact ih _

theorem generate_drizzle_filter (doc : List Command) :
    generate_drizzle doc
      = generate_drizzle (doc.filter (fun cmd => cmd.tag == "addTable")) := by
  unfold generate_drizzle
  rw [drizzle_foldl_filter]

/-! Claim theorems. -/

/-- Claim C5: the Type Mapper applies its rules in order with first match
winning, exactly as the spec enumerates them (uuid, serial, text, integer,
boolean, timestamp with the timezone option, date, json, jsonb, decimal with
extracted precision and scale, and the silent text fallback), and the whole
mapping is deterministic and case-insensitive: mapping a string equals
mapping its uppercase form, in particular on uuid versus UUID. -/
theorem C5_type_mapper_rules :
    (∀ ty : String, pg_type_to_drizzle_type ty = specTypeMapper ty)
      ∧ (∀ ty : String, pg_type_to_drizzle_type (pyUpper ty) = pg_type_to_drizzle_type ty)
      ∧ pg_type_to_drizzle_type "uuid" = pg_type_to_drizzle_type "UUID"
      ∧ pg_type_to_drizzle_type "TIMESTAMP WITH TIME ZONE"
          = ("timestamp", [("withTimezone", "true")])
      ∧ pg_type_to_drizzle_type "Decimal(10, 2)"
          = ("decimal", [("precision", "10"), ("scale", "2")])
      ∧ pg_type_to_drizzle_type "JSONB" = ("jsonb", [])
      ∧ pg_type_to_drizzle_type "unknown type" = ("text", []) := by
  refine ⟨fun ty => rfl, fun ty => ?_, by decide, by decide, by decide, by decide, by decide⟩
  unfold pg_type_to_drizzle_type
  rw [pyUpper_idem]

/-- Claim C9: a removeTable command with a name attribute emits exactly two
statements, DROP TABLE IF EXISTS of the table followed by DROP TABLE IF
EXISTS of History_ prefixed to the same name, so the history table is always
dropped together with the table. -/
theorem C9_removeTable_always_drops_history (attrs : List (String × String))
    (children : List Child) (n : String)
    (h : truthyAttr attrs "name" = some n) :
    processCommand ⟨"removeTable", attrs, children⟩
      = ["DROP TABLE IF EXISTS " ++ n ++ ";",
         "DROP TABLE IF EXISTS History_" ++ n ++ ";"] := by
  rw [processCommand_removeTable, h]
  rfl

theorem C9_witness :
    processCommand ⟨"removeTable", [("name", "users")], []⟩
      = ["DROP TABLE IF EXISTS users;", "DROP TABLE IF EXISTS History_users;"] := by
  have h := C9_removeTable_always_drops_history [("name", "users")] [] "users" (by decide)
  exact h.trans (by decide)

/-- Claim C10: the Drizzle generator's output, warnings included, depends
only on the sequence of addTable top-level elements: documents agreeing on
that sequence produce identical results, and other top-level elements are
skipped silently without any warning. -/
theorem C10_drizzle_depends_only_on_addTable (d1 d2 : List Command)
    (h : d1.filter (fun cmd => cmd.tag == "addTable")
        = d2.filter (fun cmd => cmd.tag == "addTable")) :
    generate_drizzle d1 = generate_drizzle d2 := by
  rw [generate_drizzle_filter d1, generate_drizzle_filter d2, h]

theorem C10_witness :
    generate_drizzle
        [⟨"createExtension", [("name", "uuid-ossp")], []⟩,
         ⟨"addTable", [("name", "t")], [⟨"addColumn", [("name", "a"), ("type", "INT")]⟩]⟩,
         ⟨"removeTable", [("name", "old")], []⟩,
         ⟨"mystery", [], []⟩]
      = generate_drizzle
        [⟨"addTable", [("name", "t")], [⟨"addColumn", [("name", "a"), ("type", "INT")]⟩]⟩] :=
  C10_drizzle_depends_only_on_addTable _ _ (by decide)

/-- Claim C8: in the ORM emitter, the default modifier of a valid addColumn
child carrying a default attribute follows the three-way special-case
dispatch the spec describes — verbatim pass-through of a sql-backtick
wrapper, .defaultNow() for exactly now(), the dedicated marker for exactly
uuid_generate_v4(), else a literal .default whose value is wrapped in single
quotes exactly when the mapped type is textual and the value does not begin
with a quote character — and the emitted column line carries that modifier
between the nullability and primary-key parts. -/
theorem C8_default_dispatch :
    (∀ mt v : String, defaultClause mt v = specDefaultClause mt v)
      ∧ ∀ (c : Child) (n ty v : String), getAttr c.attrib "default" = some v →
          drizzleColDef c n ty =
            "  " ++ n ++ ": " ++ (pg_type_to_drizzle_type ty).1 ++ "(\x27" ++ n ++ "\x27"
              ++ (if (if (pg_type_to_drizzle_type ty).2.isEmpty then ""
                      else "\x7b " ++ String.intercalate ", "
                        ((pg_type_to_drizzle_type ty).2.map (fun p => p.1 ++ ": " ++ p.2))
                        ++ " \x7d").isEmpty then ""
                  else ", " ++ (if (pg_type_to_drizzle_type ty).2.isEmpty then ""
                      else "\x7b " ++ String.intercalate ", "
                        ((pg_type_to_drizzle_type ty).2.map (fun p => p.1 ++ ": " ++ p.2))
                        ++ " \x7d"))
              ++ ")"
              ++ (if pyLower (getAttrD c.attrib "nullable" "true") == "false"
                  then ".notNull()" else "")
              ++ defaultClause (pg_type_to_drizzle_type ty).1 v
              ++ (if pyLower (getAttrD c.attrib "primaryKey" "false") == "true"
                  then ".primaryKey()" else "")
              ++ "," := by
  constructor
  · intro mt v
    unfold defaultClause specDefaultClause
    rcases h1 : pyStartsWith v "sql\x60" && pyEndsWith v "\x60" <;>
      rcases h2 : v == "now()" <;> rcases h3 : v == "uuid_generate_v4()" <;>
      simp [h1, h2, h3] <;>
      (by_cases hq : (mt = "text" ∨ mt = "varchar")
          ∧ pyStartsWith v "\x27" = false ∧ pyStartsWith v "\"" = false <;> simp [hq])
  · intro c n ty v h
    unfold drizzleColDef
    rw [h]

theorem C8_witness :
    drizzleColDef ⟨"addColumn", [("name", "note"), ("type", "TEXT"), ("default", "hi")]⟩
        "note" "TEXT"
      = "  " ++ "note" ++ ": " ++ (pg_type_to_drizzle_type "TEXT").1 ++ "(\x27" ++ "note" ++ "\x27"
          ++ (if (if (pg_type_to_drizzle_type "TEXT").2.isEmpty then ""
                  else "\x7b " ++ String.intercalate ", "
                    ((pg_type_to_drizzle_type "TEXT").2.map (fun p => p.1 ++ ": " ++ p.2))
                    ++ " \x7d").isEmpty then ""
              else ", " ++ (if (pg_type_to_drizzle_type "TEXT").2.isEmpty then ""
                  else "\x7b " ++ String.intercalate ", "
                    ((pg_type_to_drizzle_type "TEXT").2.map (fun p => p.1 ++ ": " ++ p.2))
                    ++ " \x7d"))
          ++ ")"
          ++ (if pyLower (getAttrD ([("name", "note"), ("type", "TEXT"), ("default", "hi")] :
                  List (String × String)) "nullable" "true") == "false"
              then ".notNull()" else "")
          ++ defaultClause (pg_type_to_drizzle_type "TEXT").1 "hi"
          ++ (if pyLower (getAttrD ([("name", "note"), ("type", "TEXT"), ("default", "hi")] :
                  List (String × String)) "primaryKey" "false") == "true"
              then ".primaryKey()" else "")
          ++ "," :=
  C8_default_dispatch.2 ⟨"addColumn", [("name", "note"), ("type", "TEXT"), ("default", "hi")]⟩
    "note" "TEXT" "hi" (by decide)

/-- Claim C1 counterexample: for a history-enabled table the generator emits
the per-column mirror design — no statement mentions a historyjson column at
all; instead the history table is cloned with LIKE, carries an operation
column of type TEXT, and the trigger function records full-row copies with
the words INSERT, UPDATE, DELETE rather than single-character codes. -/
theorem C1_counterexample :
    ((generateStmts
        [⟨"addTable", [("name", "users"), ("history", "true")],
          [⟨"addColumn", [("name", "id"), ("type", "UUID"), ("primaryKey", "true")]⟩,
           ⟨"addColumn", [("name", "email"), ("type", "VARCHAR(255)"), ("nullable", "false")]⟩]⟩]).all
        (fun s => !(containsSub s "historyjson"))) = true
    ∧ "CREATE TABLE IF NOT EXISTS History_users (LIKE users EXCLUDING CONSTRAINTS);"
        ∈ generateStmts
          [⟨"addTable", [("name", "users"), ("history", "true")],
            [⟨"addColumn", [("name", "id"), ("type", "UUID"), ("primaryKey", "true")]⟩,
             ⟨"addColumn", [("name", "email"), ("type", "VARCHAR(255)"), ("nullable", "false")]⟩]⟩]
    ∧ "ALTER TABLE History_users ADD COLUMN IF NOT EXISTS operation TEXT;"
        ∈ generateStmts
          [⟨"addTable", [("name", "users"), ("history", "true")],
            [⟨"addColumn", [("name", "id"), ("type", "UUID"), ("primaryKey", "true")]⟩,
             ⟨"addColumn", [("name", "email"), ("type", "VARCHAR(255)"), ("nullable", "false")]⟩]⟩] := by
  refine ⟨by decide, by decide, by decide⟩

/-- Claim C2 counterexample: a table whose only valid addColumn is later
removed has at least one valid addColumn child, yet the generated output
contains no CREATE TABLE statement at all. -/
theorem C2_counterexample :
    childColOp ⟨"addColumn", [("name", "a"), ("type", "INT")]⟩
        = some (ColOp.add "a" "a INT")
    ∧ (generateStmts
        [⟨"addTable", [("name", "t")],
          [⟨"addColumn", [("name", "a"), ("type", "INT")]⟩,
           ⟨"removeColumn", [("name", "a")]⟩]⟩]).countP
        (fun s => pyStartsWith s "CREATE TABLE ") = 0 := by
  refine ⟨by decide, by decide⟩

/-- Claim C3 counterexample: the generated output contains a statement
between BEGIN and COMMIT that uses no existence-guarded form at all — the
ADD CONSTRAINT half of the unique-constraint pair. -/
theorem C3_counterexample :
    "ALTER TABLE users ADD CONSTRAINT uk_users_email UNIQUE (email);"
        ∈ generateStmts
          [⟨"addTable", [("name", "users")],
            [⟨"addColumn", [("name", "email"), ("type", "VARCHAR(255)"), ("unique", "true")]⟩]⟩]
    ∧ guarded "ALTER TABLE users ADD CONSTRAINT uk_users_email UNIQUE (email);" = false := by
  refine ⟨by decide, by decide⟩

/-- Claim C4 counterexample: for an addForeignKey following an addColumn, the
DROP CONSTRAINT half of the pair is emitted immediately — before the CREATE
TABLE and the ADD COLUMN statement — not after the column changes; only the
ADD CONSTRAINT half is buffered until after them. -/
theorem C4_counterexample :
    generateStmts
        [⟨"addTable", [("name", "t")],
          [⟨"addColumn", [("name", "a"), ("type", "INT")]⟩,
           ⟨"addForeignKey", [("column", "a"), ("refTable", "r"), ("refColumn", "b")]⟩]⟩]
      = ["BEGIN;",
         "ALTER TABLE t DROP CONSTRAINT IF EXISTS fk_t_a;",
         "CREATE TABLE IF NOT EXISTS t (\n    a INT\n);",
         "ALTER TABLE t ADD COLUMN IF NOT EXISTS a INT;",
         "ALTER TABLE t ADD CONSTRAINT fk_t_a FOREIGN KEY (a) REFERENCES r(b);",
         "COMMIT;"]
    ∧ (generateStmts
        [⟨"addTable", [("name", "t")],
          [⟨"addColumn", [("name", "a"), ("type", "INT")]⟩,
           ⟨"addForeignKey", [("column", "a"), ("refTable", "r"), ("refColumn", "b")]⟩]⟩]).indexOf
        "ALTER TABLE t DROP CONSTRAINT IF EXISTS fk_t_a;"
      < (generateStmts
        [⟨"addTable", [("name", "t")],
          [⟨"addColumn", [("name", "a"), ("type", "INT")]⟩,
           ⟨"addForeignKey", [("column", "a"), ("refTable", "r"), ("refColumn", "b")]⟩]⟩]).indexOf
        "ALTER TABLE t ADD COLUMN IF NOT EXISTS a INT;" := by
  refine ⟨by decide, by decide⟩

/-- Claim C6 counterexample: a history-enabled addTable with no effective
columns produces no trigger function and no trigger binding at all, not
exactly one of each. -/
theorem C6_counterexample :
    ((processCommand ⟨"addTable", [("name", "t"), ("history", "true")], []⟩).countP
        (fun s => pyStartsWith s "CREATE OR REPLACE FUNCTION ") = 0)
    ∧ ((processCommand ⟨"addTable", [("name", "t"), ("history", "true")], []⟩).countP
        (fun s => pyStartsWith s "CREATE TRIGGER ") = 0)
    ∧ (processCommand ⟨"addTable", [("name", "t"), ("history", "true")], []⟩) ≠ [] := by
  refine ⟨by decide, by decide, by decide⟩

/-- Claim C7 counterexample: in a history-enabled table, an addColumn missing
its name but carrying primaryKey true still contributes a history
primary-key-cleanup statement, so the output differs from the output for the
document with that invalid element deleted. -/
theorem C7_counterexample :
    invalidChild ⟨"addColumn", [("primaryKey", "true")]⟩
    ∧ "ALTER TABLE History_t DROP CONSTRAINT IF EXISTS History_t_pkey;"
        ∈ generateStmts
          [⟨"addTable", [("name", "t"), ("history", "true")],
            [⟨"addColumn", [("primaryKey", "true")]⟩,
             ⟨"addColumn", [("name", "a"), ("type", "INT")]⟩]⟩]
    ∧ "ALTER TABLE History_t DROP CONSTRAINT IF EXISTS History_t_pkey;"
        ∉ generateStmts
          [⟨"addTable", [("name", "t"), ("history", "true")],
            [⟨"addColumn", [("name", "a"), ("type", "INT")]⟩]⟩]
    ∧ generateStmts
          [⟨"addTable", [("name", "t"), ("history", "true")],
            [⟨"addColumn", [("primaryKey", "true")]⟩,
             ⟨"addColumn", [("name", "a"), ("type", "INT")]⟩]⟩]
        ≠ generateStmts
          [⟨"addTable", [("name", "t"), ("history", "true")],
            [⟨"addColumn", [("name", "a"), ("type", "INT")]⟩]⟩] := by
  refine ⟨Or.inl ⟨rfl, Or.inl rfl⟩, by decide, by decide, by decide⟩

/-! Prefix classification of the emitted statements, used to count trigger
function definitions and trigger bindings. -/

theorem listLeads_append (n pre rest : List Char) :
    listLeads n (pre ++ rest)
      = (listLeads (n.take pre.length) pre && listLeads (n.drop pre.length) rest) := by
  induction n generalizing pre with
  | nil => cases pre <;> simp [listLeads]
  | cons a as ih =>
    cases pre with
    | nil => simp [listLeads]
    | cons b bs =>
      simp only [List.cons_append, listLeads, List.take_succ_cons, List.drop_succ_cons,
        List.length_cons, List.append_eq]
      rw [ih bs]
      cases a == b <;> simp [listLeads, Bool.and_assoc]

theorem notTrig_addColumnStmt (t d : String) :
    pyStartsWith (addColumnStmt t d) "CREATE OR REPLACE FUNCTION " = false
      ∧ pyStartsWith (addColumnStmt t d) "CREATE TRIGGER " = false := by
  constructor
  all_goals unfold addColumnStmt pyStartsWith
  all_goals simp only [String.data_append, List.append_assoc]
  all_goals rw [listLeads_append]
  all_goals simp [listLeads]

theorem notTrig_dropConstraintStmt (t n : String) :
    pyStartsWith (dropConstraintStmt t n) "CREATE OR REPLACE FUNCTION " = false
      ∧ pyStartsWith (dropConstraintStmt t n) "CREATE TRIGGER " = false := by
  constructor
  all_goals unfold dropConstraintStmt pyStartsWith
  all_goals simp only [String.data_append, List.append_assoc]
  all_goals rw [listLeads_append]
  all_goals simp [listLeads]

theorem notTrig_addUniqueStmt (t n c : String) :
    pyStartsWith (addUniqueStmt t n c) "CREATE OR REPLACE FUNCTION " = false
      ∧ pyStartsWith (addUniqueStmt t n c) "CREATE TRIGGER " = false := by
  constructor
  all_goals unfold addUniqueStmt pyStartsWith
  all_goals simp only [String.data_append, List.append_assoc]
  all_goals rw [listLeads_append]
  all_goals simp [listLeads]

theorem notTrig_dropColumnStmt (t c : String) :
    pyStartsWith (dropColumnStmt t c) "CREATE OR REPLACE FUNCTION " = false
      ∧ pyStartsWith (dropColumnStmt t c) "CREATE TRIGGER " = false := by
  constructor
  all_goals unfold dropColumnStmt pyStartsWith
  all_goals simp only [String.data_append, List.append_assoc]
  all_goals rw [listLeads_append]
  all_goals simp [listLeads]

theorem notTrig_fkDropStmt (t c : String) :
    pyStartsWith (fkDropStmt t c) "CREATE OR REPLACE FUNCTION " = false
      ∧ pyStartsWith (fkDropStmt t c) "CREATE TRIGGER " = false := by
  constructor
  all_goals unfold fkDropStmt pyStartsWith
  all_goals simp only [String.data_append, List.append_assoc]
  all_goals rw [listLeads_append]
  all_goals simp [listLeads]

theorem notTrig_fkAddStmt (t c rT rC : String) (od ou : Option String) :
    pyStartsWith (fkAddStmt t c rT rC od ou) "CREATE OR REPLACE FUNCTION " = false
      ∧ pyStartsWith (fkAddStmt t c rT rC od ou) "CREATE TRIGGER " = false := by
  constructor
  all_goals unfold fkAddStmt pyStartsWith
  all_goals simp only [String.data_append, List.append_assoc]
  all_goals rw [listLeads_append]
  all_goals simp [listLeads]

theorem notTrig_dropIndexStmt (n : String) :
    pyStartsWith (dropIndexStmt n) "CREATE OR REPLACE FUNCTION " = false
      ∧ pyStartsWith (dropIndexStmt n) "CREATE TRIGGER " = false := by
  constructor
  all_goals unfold dropIndexStmt pyStartsWith
  all_goals simp only [String.data_append, List.append_assoc]
  all_goals rw [listLeads_append]
  all_goals simp [listLeads]

theorem notTrig_createIndexBareStmt (n t cols : String) :
    pyStartsWith (createIndexBareStmt n t cols) "CREATE OR REPLACE FUNCTION " = false
      ∧ pyStartsWith (createIndexBareStmt n t cols) "CREATE TRIGGER " = false := by
  constructor
  all_goals unfold createIndexBareStmt pyStartsWith
  all_goals simp only [String.data_append, List.append_assoc]
  all_goals rw [listLeads_append]
  all_goals simp [listLeads]

theorem notTrig_createIndexStmt (n t cols : String) :
    pyStartsWith (createIndexStmt n t cols) "CREATE OR REPLACE FUNCTION " = false
      ∧ pyStartsWith (createIndexStmt n t cols) "CREATE TRIGGER " = false := by
  constructor
  all_goals unfold createIndexStmt pyStartsWith
  all_goals simp only [String.data_append, List.append_assoc]
  all_goals rw [listLeads_append]
  all_goals simp [listLeads]

theorem notTrig_createTableStmt (t : String) (defs : List String) :
    pyStartsWith (createTableStmt t defs) "CREATE OR REPLACE FUNCTION " = false
      ∧ pyStartsWith (createTableStmt t defs) "CREATE TRIGGER " = false := by
  constructor
  all_goals unfold createTableStmt pyStartsWith
  all_goals simp only [String.data_append, List.append_assoc]
  all_goals rw [listLeads_append]
  all_goals simp [listLeads]

theorem notTrig_likeStmt (h t : String) :
    pyStartsWith (likeStmt h t) "CREATE OR REPLACE FUNCTION " = false
      ∧ pyStartsWith (likeStmt h t) "CREATE TRIGGER " = false := by
  constructor
  all_goals unfold likeStmt pyStartsWith
  all_goals simp only [String.data_append, List.append_assoc]
  all_goals rw [listLeads_append]
  all_goals simp [listLeads]

theorem notTrig_histPkAddStmt (h : String) :
    pyStartsWith (histPkAddStmt h) "CREATE OR REPLACE FUNCTION " = false
      ∧ pyStartsWith (histPkAddStmt h) "CREATE TRIGGER " = false := by
  constructor
  all_goals unfold histPkAddStmt pyStartsWith
  all_goals simp only [String.data_append, List.append_assoc]
  all_goals rw [listLeads_append]
  all_goals simp [listLeads]

theorem notTrig_dropTrigStmt (t : String) :
    pyStartsWith (dropTrigStmt t) "CREATE OR REPLACE FUNCTION " = false
      ∧ pyStartsWith (dropTrigStmt t) "CREATE TRIGGER " = false := by
  constructor
  all_goals unfold dropTrigStmt pyStartsWith
  all_goals simp only [String.data_append, List.append_assoc]
  all_goals rw [listLeads_append]
  all_goals simp [listLeads]

theorem trigFnStmt_preds (t h cl nv ov : String) :
    pyStartsWith (trigFnStmt t h cl nv ov) "CREATE OR REPLACE FUNCTION " = true
      ∧ pyStartsWith (trigFnStmt t h cl nv ov) "CREATE TRIGGER " = false := by
  constructor
  all_goals unfold trigFnStmt pyStartsWith
  all_goals simp only [String.data_append, List.append_assoc]
  all_goals rw [listLeads_append]
  all_goals simp [listLeads]

theorem createTrigStmt_preds (t : String) :
    pyStartsWith (createTrigStmt t) "CREATE OR REPLACE FUNCTION " = false
      ∧ pyStartsWith (createTrigStmt t) "CREATE TRIGGER " = true := by
  constructor
  all_goals unfold createTrigStmt pyStartsWith
  all_goals simp only [String.data_append, List.append_assoc]
  all_goals rw [listLeads_append]
  all_goals simp [listLeads]

theorem countP_filterMap_zero (p : String → Bool) (f : Child → Option String)
    (l : List Child) (h : ∀ c s, f c = some s → p s = false) :
    (l.filterMap f).countP p = 0 := by
  induction l with
  | nil => rfl
  | cons c rest ih =>
    rw [List.filterMap_cons]
    cases hf : f c with
    | none => exact ih
    | some s =>
      rw [List.countP_cons, h c s hf]
      simpa using ih

theorem countP_map_zero {α : Type} (p : String → Bool) (f : α → String) (l : List α)
    (h : ∀ a, p (f a) = false) : (l.map f).countP p = 0 := by
  induction l with
  | nil => rfl
  | cons a rest ih =>
    rw [List.map_cons, List.countP_cons, h a]
    simpa using ih

theorem childAlterOps_countP (t : String) (c : Child) :
    ((childAlterOps t c).countP
        (fun s => pyStartsWith s "CREATE OR REPLACE FUNCTION ") = 0)
    ∧ ((childAlterOps t c).countP (fun s => pyStartsWith s "CREATE TRIGGER ") = 0) := by
  constructor
  all_goals unfold childAlterOps
  all_goals repeat' split
  all_goals simp [notTrig_addColumnStmt, notTrig_dropConstraintStmt, notTrig_addUniqueStmt,
    notTrig_dropColumnStmt, notTrig_dropIndexStmt, notTrig_createIndexBareStmt,
    notTrig_createIndexStmt]

theorem flatMap_alterOps_countP (t : String) (children : List Child) :
    ((children.flatMap (childAlterOps t)).countP
        (fun s => pyStartsWith s "CREATE OR REPLACE FUNCTION ") = 0)
    ∧ ((children.flatMap (childAlterOps t)).countP
        (fun s => pyStartsWith s "CREATE TRIGGER ") = 0) := by
  induction children with
  | nil => exact ⟨rfl, rfl⟩
  | cons c rest ih =>
    rw [List.flatMap_cons]
    refine ⟨?_, ?_⟩
    · rw [List.countP_append, (childAlterOps_countP t c).1, ih.1]
    · rw [List.countP_append, (childAlterOps_countP t c).2, ih.2]

theorem childFkDrop_no_trig (t : String) (c : Child) (s : String)
    (h : childFkDrop t c = some s) :
    pyStartsWith s "CREATE OR REPLACE FUNCTION " = false
      ∧ pyStartsWith s "CREATE TRIGGER " = false := by
  unfold childFkDrop at h
  repeat' split at h
  all_goals simp_all
  rw [← h]
  exact notTrig_fkDropStmt _ _

theorem childFkAdd_no_trig (t : String) (c : Child) (s : String)
    (h : childFkAdd t c = some s) :
    pyStartsWith s "CREATE OR REPLACE FUNCTION " = false
      ∧ pyStartsWith s "CREATE TRIGGER " = false := by
  unfold childFkAdd at h
  repeat' split at h
  all_goals simp_all
  rw [← h]
  exact notTrig_fkAddStmt _ _ _ _ _ _

theorem historySegment_prefix_pred_false (t : String) (children : List Child)
    (eff : List (String × String)) (p : String → Bool)
    (hlike : ∀ a b : String, p (likeStmt a b) = false)
    (haddc : ∀ a b : String, p (addColumnStmt a b) = false)
    (hdropc : ∀ a b : String, p (dropConstraintStmt a b) = false)
    (hpk : ∀ a : String, p (histPkAddStmt a) = false) :
    ∀ s ∈ ([likeStmt ("History_" ++ t) t]
        ++ eff.map (fun q => addColumnStmt ("History_" ++ t) q.2)
        ++ children.filterMap (fun c =>
            if c.tag == "addColumn" && pyLower (getAttrD c.attrib "primaryKey" "false") == "true" then
              some (dropConstraintStmt ("History_" ++ t) ("History_" ++ t ++ "_pkey"))
            else none)
        ++ children.filterMap (fun c =>
            if c.tag == "addForeignKey" then
              match truthyAttr c.attrib "column" with
              | some fc => some (dropConstraintStmt ("History_" ++ t) ("fk_" ++ t ++ "_" ++ fc))
              | none => none
            else none)
        ++ [addColumnStmt ("History_" ++ t) "historyid SERIAL",
            dropConstraintStmt ("History_" ++ t) ("History_" ++ t ++ "_historyid_pkey"),
            histPkAddStmt ("History_" ++ t),
            addColumnStmt ("History_" ++ t) "changed_at TIMESTAMP DEFAULT now()",
            addColumnStmt ("History_" ++ t) "operation TEXT"]), p s = false := by
  intro s hs
  simp only [List.mem_append] at hs
  rcases hs with ((((h | h) | h) | h) | h)
  · rw [List.mem_singleton] at h
    subst h
    exact hlike _ _
  · rcases List.mem_map.mp h with ⟨q, _, hq⟩
    rw [← hq]
    exact haddc _ _
  · rcases List.mem_filterMap.mp h with ⟨c, _, hcs⟩
    split at hcs
    · rw [← Option.some.inj hcs]
      exact hdropc _ _
    · exact absurd hcs (by simp)
  · rcases List.mem_filterMap.mp h with ⟨c, _, hcs⟩
    split at hcs
    · split at hcs
      · rw [← Option.some.inj hcs]
        exact hdropc _ _
      · exact absurd hcs (by simp)
    · exact absurd hcs (by simp)
  · simp only [List.mem_cons, List.not_mem_nil, or_false] at h
    rcases h with h | h | h | h | h <;> subst h
    · exact haddc _ _
    · exact hdropc _ _
    · exact hpk _
    · exact haddc _ _
    · exact haddc _ _

theorem historySegment_countP (t : String) (children : List Child)
    (eff : List (String × String)) (heff : eff.isEmpty = false) :
    ((historySegment t children eff).countP
        (fun s => pyStartsWith s "CREATE OR REPLACE FUNCTION ") = 1)
    ∧ ((historySegment t children eff).countP
        (fun s => pyStartsWith s "CREATE TRIGGER ") = 1) := by
  unfold historySegment
  dsimp only
  rw [if_neg (by rw [heff]; exact Bool.false_ne_true)]
  have hP1 := historySegment_prefix_pred_false t children eff
    (fun s => pyStartsWith s "CREATE OR REPLACE FUNCTION ")
    (fun a b => (notTrig_likeStmt a b).1) (fun a b => (notTrig_addColumnStmt a b).1)
    (fun a b => (notTrig_dropConstraintStmt a b).1) (fun a => (notTrig_histPkAddStmt a).1)
  have hP2 := historySegment_prefix_pred_false t children eff
    (fun s => pyStartsWith s "CREATE TRIGGER ")
    (fun a b => (notTrig_likeStmt a b).2) (fun a b => (notTrig_addColumnStmt a b).2)
    (fun a b => (notTrig_dropConstraintStmt a b).2) (fun a => (notTrig_histPkAddStmt a).2)
  refine ⟨?_, ?_⟩ <;> rw [List.countP_append]
  · rw [List.countP_eq_zero.mpr (fun s hs => by simpa using hP1 s hs)]
    simp [List.countP_cons, trigFnStmt_preds, notTrig_dropTrigStmt, createTrigStmt_preds]
  · rw [List.countP_eq_zero.mpr (fun s hs => by simpa using hP2 s hs)]
    simp [List.countP_cons, trigFnStmt_preds, notTrig_dropTrigStmt, createTrigStmt_preds]

/-- Claim C6 (amended): for every addTable command carrying a name, with
history tracking enabled and at least one effective column, the command's
emitted SQL segment contains exactly one trigger-function definition (a
statement starting with CREATE OR REPLACE FUNCTION) and exactly one
trigger-binding statement (starting with CREATE TRIGGER), and the segment
ends with the trigger-function definition followed by DROP TRIGGER IF
EXISTS and CREATE TRIGGER for that table.  The original claim omitted the
nonempty-effective-column proviso: with no effective columns the history
block emits neither a trigger function nor a trigger. -/
theorem C6_amended (attrs : List (String × String)) (children : List Child) (t : String)
    (hname : truthyAttr attrs "name" = some t)
    (hhist : ["true", "yes", "1"].contains (pyLower (getAttrD attrs "history" "")) = true)
    (heff : ((children.foldl (processChild t) ⟨[], [], [], []⟩).effectiveColumns).isEmpty
      = false) :
    ((processCommand ⟨"addTable", attrs, children⟩).countP
        (fun s => pyStartsWith s "CREATE OR REPLACE FUNCTION ") = 1)
    ∧ ((processCommand ⟨"addTable", attrs, children⟩).countP
        (fun s => pyStartsWith s "CREATE TRIGGER ") = 1)
    ∧ ∃ pre, processCommand ⟨"addTable", attrs, children⟩
        = pre ++ [trigFnStmt t ("History_" ++ t)
            (String.intercalate ", "
              (((children.foldl (processChild t) ⟨[], [], [], []⟩).effectiveColumns).map
                Prod.fst))
            (String.intercalate ", "
              (((children.foldl (processChild t) ⟨[], [], [], []⟩).effectiveColumns).map
                (fun p => "NEW." ++ p.1)))
            (String.intercalate ", "
              (((children.foldl (processChild t) ⟨[], [], [], []⟩).effectiveColumns).map
                (fun p => "OLD." ++ p.1))),
          dropTrigStmt t, createTrigStmt t] := by
  rw [processCommand_addTable, hname]
  dsimp only
  rw [if_pos hhist]
  rw [if_neg (by simp [heff])]
  have hdec := foldl_processChild_eq t children ⟨[], [], [], []⟩
  have him : (children.foldl (processChild t) ⟨[], [], [], []⟩).immediate
      = children.filterMap (childFkDrop t) := by rw [hdec]; rfl
  have halt : (children.foldl (processChild t) ⟨[], [], [], []⟩).alterOps
      = children.flatMap (childAlterOps t) := by rw [hdec]; rfl
  have hfk : (children.foldl (processChild t) ⟨[], [], [], []⟩).foreignKeys
      = children.filterMap (childFkAdd t) := by rw [hdec]; rfl
  rw [him, halt, hfk]
  refine ⟨?_, ?_, ?_⟩
  · rw [List.countP_append, List.countP_append, List.countP_append, List.countP_append]
    rw [countP_filterMap_zero _ _ _ (fun c s h => (childFkDrop_no_trig t c s h).1),
        (flatMap_alterOps_countP t children).1,
        countP_filterMap_zero _ _ _ (fun c s h => (childFkAdd_no_trig t c s h).1),
        (historySegment_countP t children _ heff).1]
    simp [List.countP_cons, notTrig_createTableStmt]
  · rw [List.countP_append, List.countP_append, List.countP_append, List.countP_append]
    rw [countP_filterMap_zero _ _ _ (fun c s h => (childFkDrop_no_trig t c s h).2),
        (flatMap_alterOps_countP t children).2,
        countP_filterMap_zero _ _ _ (fun c s h => (childFkAdd_no_trig t c s h).2),
        (historySegment_countP t children _ heff).2]
    simp [List.countP_cons, notTrig_createTableStmt]
  · unfold historySegment
    dsimp only
    rw [if_neg (by simp [heff])]
    refine ⟨children.filterMap (childFkDrop t)
        ++ [createTableStmt t
            (((children.foldl (processChild t) ⟨[], [], [], []⟩).effectiveColumns).map
              Prod.snd)]
        ++ children.flatMap (childAlterOps t)
        ++ children.filterMap (childFkAdd t)
        ++ [likeStmt ("History_" ++ t) t]
        ++ ((children.foldl (processChild t) ⟨[], [], [], []⟩).effectiveColumns).map
            (fun p => addColumnStmt ("History_" ++ t) p.2)
        ++ children.filterMap (fun c =>
            if c.tag == "addColumn"
                && pyLower (getAttrD c.attrib "primaryKey" "false") == "true" then
              some (dropConstraintStmt ("History_" ++ t) ("History_" ++ t ++ "_pkey"))
            else none)
        ++ children.filterMap (fun c =>
            if c.tag == "addForeignKey" then
              match truthyAttr c.attrib "column" with
              | some fc =>
                some (dropConstraintStmt ("History_" ++ t) ("fk_" ++ t ++ "_" ++ fc))
              | none => none
            else none)
        ++ [addColumnStmt ("History_" ++ t) "historyid SERIAL",
            dropConstraintStmt ("History_" ++ t) ("History_" ++ t ++ "_historyid_pkey"),
            histPkAddStmt ("History_" ++ t),
            addColumnStmt ("History_" ++ t) "changed_at TIMESTAMP DEFAULT now()",
            addColumnStmt ("History_" ++ t) "operation TEXT"], ?_⟩
    simp only [List.append_assoc]

theorem C6_witness :
    (["true", "yes", "1"].contains
        (pyLower (getAttrD [("name", "users"), ("history", "true")] "history" "")) = true)
    ∧ ((processCommand ⟨"addTable", [("name", "users"), ("history", "true")],
          [⟨"addColumn", [("name", "id"), ("type", "UUID")]⟩]⟩).countP
        (fun s => pyStartsWith s "CREATE OR REPLACE FUNCTION ") = 1) := by
  refine ⟨by decide, ?_⟩
  exact (C6_amended [("name", "users"), ("history", "true")]
    [⟨"addColumn", [("name", "id"), ("type", "UUID")]⟩] "users"
    (by decide) (by decide) (by decide)).1

/-- Claim C2 (amended): for every addTable command carrying a name whose
effective column set is nonempty, that set is exactly the
first-declared-order list built from the addColumn/removeColumn operations
in document order — each column appearing once (keys are duplicate-free),
its entry carrying the definition of its last add, a later removal always
winning — and the generated output contains the CREATE TABLE statement
listing exactly those columns.  The original claim promised a CREATE TABLE
whenever at least one valid addColumn child exists, but a subsequent
removeColumn can empty the effective set, in which case no CREATE TABLE
is emitted at all. -/
theorem C2_amended (attrs : List (String × String)) (children : List Child) (t : String)
    (hname : truthyAttr attrs "name" = some t)
    (hne : freshList (children.filterMap childColOp) [] ≠ []) :
    ((children.foldl (processChild t) ⟨[], [], [], []⟩).effectiveColumns
        = freshList (children.filterMap childColOp) [])
    ∧ (((freshList (children.filterMap childColOp) []).map Prod.fst).Nodup)
    ∧ (∀ k, lookupCol k (freshList (children.filterMap childColOp) [])
        = lastAddVal k (children.filterMap childColOp))
    ∧ createTableStmt t ((freshList (children.filterMap childColOp) []).map Prod.snd)
        ∈ processCommand ⟨"addTable", attrs, children⟩ := by
  have hf : (children.filterMap childColOp).foldl applyColOp []
      = freshList (children.filterMap childColOp) [] := by
    rw [foldl_applyColOp_eq]
    rfl
  have he : (children.foldl (processChild t) ⟨[], [], [], []⟩).effectiveColumns
      = freshList (children.filterMap childColOp) [] := by
    rw [foldl_processChild_eq]
    exact hf
  refine ⟨he, ?_, ?_, ?_⟩
  · rw [← hf]
    exact keysNodup_foldl _ _ (by simp)
  · intro k
    rw [← hf, lookupCol_foldl]
    cases h : lastOpOn k (children.filterMap childColOp) with
    | none => simp [lastAddVal, h, lookupCol]
    | some o => cases o <;> simp [lastAddVal, h]
  · rw [processCommand_addTable, hname]
    dsimp only
    rw [if_neg (by rw [he]; simpa using hne)]
    rw [he]
    simp [List.mem_append]

theorem C2_witness :
    (freshList (([⟨"addColumn", [("name", "id"), ("type", "UUID")]⟩] : List Child).filterMap
        childColOp) [] ≠ [])
    ∧ ((([⟨"addColumn", [("name", "id"), ("type", "UUID")]⟩] : List Child).foldl
          (processChild "users") ⟨[], [], [], []⟩).effectiveColumns
        = freshList (([⟨"addColumn", [("name", "id"), ("type", "UUID")]⟩] : List Child).filterMap
            childColOp) []) := by
  refine ⟨by decide, ?_⟩
  exact (C2_amended [("name", "users")] [⟨"addColumn", [("name", "id"), ("type", "UUID")]⟩]
    "users" (by decide) (by decide)).1

/-- Claim C3 (amended): every SQL statement the generator emits between
BEGIN; and COMMIT; either uses an existence-guarded form (IF NOT EXISTS /
IF EXISTS / OR REPLACE), or is an unguarded ADD CONSTRAINT or bare CREATE
statement preceded earlier in the output by its matching guarded drop
(DROP CONSTRAINT IF EXISTS, DROP INDEX IF EXISTS, or DROP TRIGGER IF
EXISTS on the same name), which makes the drop-add pair as a whole safe to
re-run.  The original claim is false as stated: ADD CONSTRAINT, the
second CREATE INDEX form, and CREATE TRIGGER statements carry no
existence guard of their own. -/
theorem C3_amended_guard_or_drop (doc : List Command) (pre : List String) (s : String)
    (post : List String) (h : doc.flatMap processCommand = pre ++ s :: post) :
    guarded s = true ∨ ∃ d ∈ pre, pairedDrop d s := by
  have hh := dropGuardedOKr_elim [] (doc.flatMap processCommand)
    (flatMap_processCommand_ok doc []) pre s post h
  simpa using hh

theorem C3_witness :
    (([⟨"createExtension", [("name", "pgcrypto")], []⟩] : List Command).flatMap processCommand
        = [] ++ extStmt "pgcrypto" :: [])
    ∧ (guarded (extStmt "pgcrypto") = true
        ∨ ∃ d ∈ ([] : List String), pairedDrop d (extStmt "pgcrypto")) := by
  refine ⟨by rfl, ?_⟩
  exact C3_amended_guard_or_drop [⟨"createExtension", [("name", "pgcrypto")], []⟩] []
    (extStmt "pgcrypto") [] (by rfl)

/-- Claim C4 (amended): for every addForeignKey child with column, refTable
and refColumn present, the generator emits a drop-then-add pair for the
constraint fk_<table>_<column>, the add carrying ON DELETE / ON UPDATE
clauses verbatim when those attributes are present; but only the ADD
CONSTRAINT statement is buffered to be emitted after all column and index
changes — the DROP CONSTRAINT IF EXISTS statement is appended to the
output immediately, so it precedes the CREATE TABLE statement and every
column and index change of that table.  The original claim said both
statements of the pair are collected separately and emitted after the
column and index changes. -/
theorem C4_amended (attrs : List (String × String)) (children : List Child) (t : String)
    (hname : truthyAttr attrs "name" = some t) :
    (processCommand ⟨"addTable", attrs, children⟩
      = children.filterMap (childFkDrop t)
        ++ (if ((children.foldl (processChild t) ⟨[], [], [], []⟩).effectiveColumns).isEmpty
            then []
            else [createTableStmt t
              (((children.foldl (processChild t) ⟨[], [], [], []⟩).effectiveColumns).map
                Prod.snd)])
        ++ children.flatMap (childAlterOps t)
        ++ children.filterMap (childFkAdd t)
        ++ (if ["true", "yes", "1"].contains (pyLower (getAttrD attrs "history" "")) then
              historySegment t children
                ((children.foldl (processChild t) ⟨[], [], [], []⟩).effectiveColumns)
            else []))
    ∧ ∀ c ∈ children, c.tag = "addForeignKey" →
        ∀ fc rT rC, truthyAttr c.attrib "column" = some fc →
          truthyAttr c.attrib "refTable" = some rT →
          truthyAttr c.attrib "refColumn" = some rC →
          childFkDrop t c = some (fkDropStmt t fc)
          ∧ childFkAdd t c = some (fkAddStmt t fc rT rC
              (truthyAttr c.attrib "onDelete") (truthyAttr c.attrib "onUpdate")) := by
  constructor
  · rw [processCommand_addTable, hname]
    dsimp only
    have hdec := foldl_processChild_eq t children ⟨[], [], [], []⟩
    have him : (children.foldl (processChild t) ⟨[], [], [], []⟩).immediate
        = children.filterMap (childFkDrop t) := by rw [hdec]; rfl
    have halt : (children.foldl (processChild t) ⟨[], [], [], []⟩).alterOps
        = children.flatMap (childAlterOps t) := by rw [hdec]; rfl
    have hfk : (children.foldl (processChild t) ⟨[], [], [], []⟩).foreignKeys
        = children.filterMap (childFkAdd t) := by rw [hdec]; rfl
    rw [him, halt, hfk]
  · intro c _ htag fc rT rC h1 h2 h3
    constructor
    · unfold childFkDrop
      simp [htag, h1, h2, h3]
    · unfold childFkAdd
      simp [htag, h1, h2, h3]

theorem C4_witness :
    (truthyAttr [("name", "orders")] "name" = some "orders")
    ∧ (childFkDrop "orders"
        ⟨"addForeignKey", [("column", "user_id"), ("refTable", "users"),
          ("refColumn", "id")]⟩
        = some (fkDropStmt "orders" "user_id")) := by
  refine ⟨by decide, ?_⟩
  exact ((C4_amended [("name", "orders")]
      [⟨"addForeignKey", [("column", "user_id"), ("refTable", "users"), ("refColumn", "id")]⟩]
      "orders" (by decide)).2
    ⟨"addForeignKey", [("column", "user_id"), ("refTable", "users"), ("refColumn", "id")]⟩
    (by simp) (by decide) "user_id" "users" "id" (by decide) (by decide) (by decide)).1

/-- Claim C1 (amended): for every addTable command carrying a name, with
history tracking enabled and a nonempty effective column set, the SQL
generator emits a history table named History_<table> built as a
per-column mirror of the tracked table: a CREATE TABLE IF NOT EXISTS
History_<table> (LIKE <table>) clone, then historyid SERIAL promoted to
the History_<table>_historyid_pkey primary key, changed_at TIMESTAMP
DEFAULT now(), and operation TEXT columns; and the trigger function
(whose body inserts one full-row copy of NEW or OLD per change, tagged
with the words INSERT, UPDATE or DELETE) plus its trigger binding.  The
original claim described a different design — a lowercase history_<table>
with a historyjson JSON column, single-character I/U/D operation codes,
and a sparse JSON diff on update — none of which the code produces. -/
theorem C1_amended (attrs : List (String × String)) (children : List Child) (t : String)
    (hname : truthyAttr attrs "name" = some t)
    (hhist : ["true", "yes", "1"].contains (pyLower (getAttrD attrs "history" "")) = true)
    (heff : ((children.foldl (processChild t) ⟨[], [], [], []⟩).effectiveColumns).isEmpty
      = false) :
    likeStmt ("History_" ++ t) t ∈ processCommand ⟨"addTable", attrs, children⟩
    ∧ addColumnStmt ("History_" ++ t) "historyid SERIAL"
        ∈ processCommand ⟨"addTable", attrs, children⟩
    ∧ dropConstraintStmt ("History_" ++ t) ("History_" ++ t ++ "_historyid_pkey")
        ∈ processCommand ⟨"addTable", attrs, children⟩
    ∧ histPkAddStmt ("History_" ++ t) ∈ processCommand ⟨"addTable", attrs, children⟩
    ∧ addColumnStmt ("History_" ++ t) "changed_at TIMESTAMP DEFAULT now()"
        ∈ processCommand ⟨"addTable", attrs, children⟩
    ∧ addColumnStmt ("History_" ++ t) "operation TEXT"
        ∈ processCommand ⟨"addTable", attrs, children⟩
    ∧ trigFnStmt t ("History_" ++ t)
        (String.intercalate ", "
          (((children.foldl (processChild t) ⟨[], [], [], []⟩).effectiveColumns).map Prod.fst))
        (String.intercalate ", "
          (((children.foldl (processChild t) ⟨[], [], [], []⟩).effectiveColumns).map
            (fun p => "NEW." ++ p.1)))
        (String.intercalate ", "
          (((children.foldl (processChild t) ⟨[], [], [], []⟩).effectiveColumns).map
            (fun p => "OLD." ++ p.1)))
        ∈ processCommand ⟨"addTable", attrs, children⟩
    ∧ dropTrigStmt t ∈ processCommand ⟨"addTable", attrs, children⟩
    ∧ createTrigStmt t ∈ processCommand ⟨"addTable", attrs, children⟩ := by
  rw [processCommand_addTable, hname]
  dsimp only
  rw [if_pos hhist]
  refine ⟨?_, ?_, ?_, ?_, ?_, ?_, ?_, ?_, ?_⟩
  all_goals simp only [List.mem_append]
  all_goals refine Or.inr ?_
  all_goals simp [historySegment, heff]

theorem C1_witness :
    (["true", "yes", "1"].contains
        (pyLower (getAttrD [("name", "t1"), ("history", "yes")] "history" "")) = true)
    ∧ likeStmt ("History_" ++ "t1") "t1"
        ∈ processCommand ⟨"addTable", [("name", "t1"), ("history", "yes")],
            [⟨"addColumn", [("name", "a"), ("type", "TEXT")]⟩]⟩ := by
  refine ⟨by decide, ?_⟩
  exact (C1_amended [("name", "t1"), ("history", "yes")]
    [⟨"addColumn", [("name", "a"), ("type", "TEXT")]⟩] "t1"
    (by decide) (by decide) (by decide)).1

/-- Claim C7 (amended): an element missing a required attribute contributes
no statement of its own and processing continues with its siblings, but
full deletion-equivalence of the output holds only outside the history
rescans: (1) a top-level createExtension/addTable/removeTable command
without a name changes neither the SQL statement list nor the Drizzle
schema text when deleted; (2) an invalid child of an addTable changes the
Drizzle schema text not at all, and leaves the SQL output unchanged when
deleted provided history tracking is disabled for that table or the child
is history-safe.  The original claim promised deletion-equivalence
unconditionally, but the history block rescans the raw child list: an
addColumn child lacking name or type yet carrying primaryKey true, and an
addForeignKey child lacking refTable or refColumn yet carrying a column
attribute, still inject DROP CONSTRAINT statements into the history
segment, so deleting them changes the output. -/
theorem C7_amended :
    (∀ (dpre dpost : List Command) (bad : Command),
      (bad.tag = "createExtension" ∨ bad.tag = "addTable" ∨ bad.tag = "removeTable") →
      truthyAttr bad.attrib "name" = none →
      generateStmts (dpre ++ bad :: dpost) = generateStmts (dpre ++ dpost)
      ∧ (generate_drizzle (dpre ++ bad :: dpost)).1 = (generate_drizzle (dpre ++ dpost)).1)
    ∧ (∀ (dpre dpost : List Command) (attrs : List (String × String))
        (cpre cpost : List Child) (bad : Child), invalidChild bad →
      ((["true", "yes", "1"].contains (pyLower (getAttrD attrs "history" "")) = false
          ∨ historySafe bad) →
        generateStmts (dpre ++ ⟨"addTable", attrs, cpre ++ bad :: cpost⟩ :: dpost)
          = generateStmts (dpre ++ ⟨"addTable", attrs, cpre ++ cpost⟩ :: dpost))
      ∧ (generate_drizzle (dpre ++ ⟨"addTable", attrs, cpre ++ bad :: cpost⟩ :: dpost)).1
          = (generate_drizzle (dpre ++ ⟨"addTable", attrs, cpre ++ cpost⟩ :: dpost)).1) := by
  constructor
  · intro dpre dpost bad htag hname
    have hpc : processCommand bad = [] := processCommand_noname bad htag hname
    have htd : tableDefOf bad = none := by
      rcases htag with h | h | h <;> simp [tableDefOf, h, hname]
    constructor
    · unfold generateStmts
      simp [List.flatMap_append, List.flatMap_cons, hpc]
    · rw [generate_drizzle_fst, generate_drizzle_fst, List.filterMap_append,
          List.filterMap_append, List.filterMap_cons, htd]
  · intro dpre dpost attrs cpre cpost bad hinv
    constructor
    · intro hhist
      have hpc := processCommand_skip_child attrs cpre cpost bad hinv hhist
      unfold generateStmts
      simp [List.flatMap_append, List.flatMap_cons, hpc]
    · have hcd : childDrizzleCol bad = none := by
        rcases hinv with ⟨ht, hn⟩ | ⟨ht, hn⟩ | ⟨ht, hn⟩ | ⟨ht, hn⟩ | ⟨ht, hn⟩
        · rcases hn with hn | hn <;> cases h1 : truthyAttr bad.attrib "name" <;>
            cases h2 : truthyAttr bad.attrib "type" <;> simp_all [childDrizzleCol]
        all_goals simp_all [childDrizzleCol]
      have hcols : ∀ t, (drizzleColumns t (cpre ++ bad :: cpost)).1
          = (drizzleColumns t (cpre ++ cpost)).1 := by
        intro t
        rw [drizzleColumns_fst, drizzleColumns_fst, List.filterMap_append,
            List.filterMap_append, List.filterMap_cons, hcd]
      have htd : tableDefOf ⟨"addTable", attrs, cpre ++ bad :: cpost⟩
          = tableDefOf ⟨"addTable", attrs, cpre ++ cpost⟩ := by
        unfold tableDefOf
        cases hname : truthyAttr attrs "name" <;> simp [hname, hcols]
      rw [generate_drizzle_fst, generate_drizzle_fst, List.filterMap_append,
          List.filterMap_append, List.filterMap_cons, List.filterMap_cons, htd]

theorem C7_witness :
    (truthyAttr ([] : List (String × String)) "name" = none)
    ∧ generateStmts [⟨"addTable", [], []⟩] = generateStmts [] := by
  refine ⟨by decide, ?_⟩
  exact (C7_amended.1 [] [] ⟨"addTable", [], []⟩ (Or.inr (Or.inl rfl)) (by decide)).1
